import Mathlib

/-!
Verification development for the `traffic-control` repository.

The Python sources are shallowly embedded as Lean definitions:

* `src/utils/time.py` — timestamp validation and ISO-8601 ⇄ Unix conversion
  (`TimestampValidator`, `iso_to_unix`, `unix_to_iso`).  Python's
  `datetime.fromisoformat` / `datetime.fromtimestamp` are modelled over the
  proleptic Gregorian calendar; the "days before year" closed form mirrors
  CPython's `_days_before_year`, and the inverse direction is computed by an
  explicit fuelled year/month walk that computes the same function as
  CPython's `_ord2ymd`.
* `src/models/validator.py` — `validate_payload` and its helpers.
* `src/services/data_formatter.py` — `normalize_density`,
  `ensure_vehicle_stats` (floats modelled as rationals, with Python's
  round-half-to-even for `round(x, 3)`).
* `src/services/storage_proxy.py` — `download_from_storage` retry loop,
  with per-attempt outcomes supplied by an oracle.
* `src/services/database_service.py` — `register_metadata` over a list-valued
  metadata store.
* `src/models/schemas/data_schema.py` and `src/api/server.py` — the
  `TrafficData` shape predicates, `to_batch_format` and the `/process`
  entry point, with the downstream pipeline of
  `src/services/process_service.py` embedded over an environment oracle.

Machine-value caveats, stated once here: Python `int` is unbounded, so `Int`
and `Nat` are exact models; Python `float` arithmetic appearing in
`normalize_density` is modelled over `ℚ`, which agrees with the binary
floats on every value the spec mentions; naive datetimes (no UTC offset) are
interpreted by CPython in the process-local timezone, modelled here as UTC.
-/

/-! ### Gregorian calendar groundwork (model of CPython's `datetime` internals) -/

/-- Model of CPython's leap-year predicate `_is_leap`. -/
def isLeapYear (y : Nat) : Bool :=
  y % 4 = 0 && (y % 100 ≠ 0 || y % 400 = 0)

/-- Number of days in a Gregorian year. -/
def daysInYear (y : Nat) : Nat :=
  if isLeapYear y then 366 else 365

/-- Model of CPython's `_days_in_month` (month 1–12). -/
def daysInMonth (y m : Nat) : Nat :=
  if m = 2 then (if isLeapYear y then 29 else 28)
  else if m = 4 ∨ m = 6 ∨ m = 9 ∨ m = 11 then 30
  else 31

/-- Model of CPython's `_days_before_month` (days in year `y` preceding
month `m`). -/
def daysBeforeMonth (y m : Nat) : Nat :=
  let base : Nat :=
    match m with
    | 1 => 0 | 2 => 31 | 3 => 59 | 4 => 90 | 5 => 120 | 6 => 151
    | 7 => 181 | 8 => 212 | 9 => 243 | 10 => 273 | 11 => 304 | _ => 334
  if m > 2 ∧ isLeapYear y then base + 1 else base

/-- Model of CPython's `_days_before_year`: days from 0001-01-01 up to
January 1st of year `y` (closed form `365*(y-1) + (y-1)/4 - (y-1)/100 +
(y-1)/400`). -/
def daysBeforeYear (y : Nat) : Nat :=
  365 * (y - 1) + (y - 1) / 4 - (y - 1) / 100 + (y - 1) / 400

/-- Model of CPython's `_ymd2ord`: 1-based ordinal of a Gregorian date. -/
def ymd2ord (y m d : Nat) : Nat :=
  daysBeforeYear y + daysBeforeMonth y m + d

/-- Ordinal of the Unix epoch 1970-01-01 (CPython's `_EPOCH` ordinal). -/
def epochOrd : Nat := 719163

/-- Fuelled year walk: starting at year `y`, peel whole years off the day
count `z` (days since January 1st of `y`).  With fuel at least `z + 1` the
fuel never runs out, so this computes the same year/day-of-year split as
CPython's `_ord2ymd`. -/
def yearWalk : Nat → Nat → Nat → Nat × Nat
  | 0, y, z => (y, z)
  | fuel + 1, y, z =>
    if z < daysInYear y then (y, z) else yearWalk fuel (y + 1) (z - daysInYear y)

/-- Month lengths of a year, March-independent list form (index 0 = January). -/
def monthLengths (leap : Bool) : List Nat :=
  [31, if leap then 29 else 28, 31, 30, 31, 30, 31, 31, 30, 31, 30, 31]

/-- Month walk: peel whole months off a day-of-year, returning the 1-based
month and the 0-based day of month; computes the same month/day split as
CPython's `_ord2ymd`. -/
def monthWalk : List Nat → Nat → Nat → Nat × Nat
  | [], m, doy => (m, doy)
  | len :: rest, m, doy =>
    if doy < len then (m, doy) else monthWalk rest (m + 1) (doy - len)

/-! ### Model of CPython `datetime` values and conversions (`src/utils/time.py`) -/

/-- Model of a CPython `datetime` value: Gregorian components plus an
optional fixed UTC offset in seconds (`none` = naive datetime). -/
structure PyDateTime where
  year : Nat
  month : Nat
  day : Nat
  hour : Nat
  minute : Nat
  second : Nat
  utcOffsetSeconds : Option Int
  deriving Repr, DecidableEq

/-- Model of `datetime.fromtimestamp(u, tz=timezone.utc)` for a nonnegative
whole-second Unix timestamp (the only way `src/utils/time.py` calls it:
`unix_to_iso` range-checks `u` to 946684800..4102444800 first).  The
year/month split is computed by the fuelled walks, which agree with
CPython's `_ord2ymd` on this domain. -/
def fromtimestampUTC (u : Nat) : PyDateTime :=
  let days := u / 86400
  let sod := u % 86400
  let yw := yearWalk (days + 1) 1970 days
  let mw := monthWalk (monthLengths (isLeapYear yw.1)) 1 yw.2
  { year := yw.1, month := mw.1, day := mw.2 + 1,
    hour := sod / 3600, minute := sod % 3600 / 60, second := sod % 60,
    utcOffsetSeconds := some 0 }

/-- Model of `datetime.timestamp()`: seconds since the Unix epoch.  A naive
datetime is interpreted by CPython in the process-local timezone; the
deployment-local timezone is modelled as UTC (offset 0). -/
def timestampOf (dt : PyDateTime) : Int :=
  ((ymd2ord dt.year dt.month dt.day : Int) - (epochOrd : Int)) * 86400
    + dt.hour * 3600 + dt.minute * 60 + dt.second
    - dt.utcOffsetSeconds.getD 0

/-- Decimal digit character (codes 48–57). -/
def digitChar (n : Nat) : Char := Char.ofNat (48 + n)

/-- Two-digit zero-padded decimal rendering, as CPython `%02d`. -/
def pad2 (n : Nat) : List Char := [digitChar (n / 10), digitChar (n % 10)]

/-- Four-digit zero-padded decimal rendering, as CPython `%04d`. -/
def pad4 (n : Nat) : List Char :=
  [digitChar (n / 1000), digitChar (n / 100 % 10), digitChar (n / 10 % 10),
   digitChar (n % 10)]

/-- Date-time core of the ISO rendering, `YYYY-MM-DDTHH:MM:SS`. -/
def isoCore (dt : PyDateTime) : List Char :=
  pad4 dt.year ++ '-' :: pad2 dt.month ++ '-' :: pad2 dt.day
    ++ 'T' :: pad2 dt.hour ++ ':' :: pad2 dt.minute ++ ':' :: pad2 dt.second

/-- Model of `datetime.isoformat()` for a whole-second datetime carrying the
UTC fixed offset: `YYYY-MM-DDTHH:MM:SS+00:00`. -/
def isoformatUTC (dt : PyDateTime) : List Char :=
  isoCore dt ++ ['+', '0', '0', ':', '0', '0']

/-- Fuelled worker for `replacePlus0000`; fuel at least the list length
makes the fuel-exhausted branch unreachable. -/
def replacePlusAux : Nat → List Char → List Char
  | 0, l => l
  | _ + 1, [] => []
  | fuel + 1, c :: rest =>
    if c = '+' ∧ rest.take 5 = ['0', '0', ':', '0', '0'] then
      'Z' :: replacePlusAux fuel (rest.drop 5)
    else c :: replacePlusAux fuel rest

/-- Model of Python `str.replace("+00:00", "Z")`: left-to-right
non-overlapping replacement of every occurrence. -/
def replacePlus0000 (l : List Char) : List Char := replacePlusAux l.length l

/-- Model of Python `str.replace("Z", "+00:00")`: every occurrence of `Z`
is replaced (the source guards this with `endswith("Z")`, but `replace`
itself is global). -/
def replaceZ0000 : List Char → List Char
  | [] => []
  | c :: rest =>
    if c = 'Z' then '+' :: '0' :: '0' :: ':' :: '0' :: '0' :: replaceZ0000 rest
    else c :: replaceZ0000 rest

/-- Model of Python `str.endswith("Z")`. -/
def endsWithZ (l : List Char) : Bool := l.getLast? = some 'Z'

/-- Digit value of a character, `ord(c) - 48`. -/
def digitVal (c : Char) : Nat := c.toNat - 48

/-- Parse exactly two digit characters. -/
def parse2 : List Char → Option (Nat × List Char)
  | c1 :: c2 :: rest =>
    if c1.isDigit && c2.isDigit then
      some (10 * digitVal c1 + digitVal c2, rest)
    else none
  | _ => none

/-- Parse exactly four digit characters. -/
def parse4 : List Char → Option (Nat × List Char)
  | c1 :: c2 :: c3 :: c4 :: rest =>
    if c1.isDigit && c2.isDigit && c3.isDigit && c4.isDigit then
      some (1000 * digitVal c1 + 100 * digitVal c2 + 10 * digitVal c3
        + digitVal c4, rest)
    else none
  | _ => none

/-- Consume one expected character. -/
def expectChar (c : Char) : List Char → Option (List Char)
  | c2 :: rest => if c2 = c then some rest else none
  | [] => none

/-- Parse a trailing UTC-offset suffix `±HH:MM` (or nothing).  Returns the
offset in seconds; CPython additionally accepts seconds-bearing offsets and
fractional parts, which are outside this model. -/
def parseTZ : List Char → Option (Option Int)
  | [] => some none
  | sign :: rest =>
    if sign = '+' ∨ sign = '-' then
      match parse2 rest with
      | some (hh, r1) =>
        match expectChar ':' r1 with
        | some r2 =>
          match parse2 r2 with
          | some (mm, r3) =>
            if r3 = [] ∧ hh ≤ 23 ∧ mm ≤ 59 then
              some (some ((if sign = '-' then (-1 : Int) else 1)
                * (hh * 3600 + mm * 60)))
            else none
          | none => none
        | none => none
      | none => none
    else none

/-- Parse the time-of-day part `HH[:MM[:SS]]` followed by an optional
offset.  Fractional seconds are outside this model. -/
def parseHMS (l : List Char) : Option (Nat × Nat × Nat × Option Int) :=
  match parse2 l with
  | none => none
  | some (h, r0) =>
    match r0 with
    | ':' :: r1 =>
      match parse2 r1 with
      | none => none
      | some (mi, r2) =>
        match r2 with
        | ':' :: r3 =>
          match parse2 r3 with
          | none => none
          | some (s, r4) =>
            match parseTZ r4 with
            | some off => some (h, mi, s, off)
            | none => none
        | _ =>
          match parseTZ r2 with
          | some off => some (h, mi, 0, off)
          | none => none
    | _ =>
      match parseTZ r0 with
      | some off => some (h, 0, 0, off)
      | none => none

/-- Model of `datetime.fromisoformat` on the grammar
`YYYY-MM-DD[<sep>HH[:MM[:SS]][±HH:MM]]` (any single separator character, as
in CPython), including the constructor's range validation.  Fractional
seconds and seconds-bearing offsets are outside the model. -/
def fromisoformat (l : List Char) : Option PyDateTime :=
  match parse4 l with
  | none => none
  | some (y, r0) =>
    match expectChar '-' r0 with
    | none => none
    | some r1 =>
      match parse2 r1 with
      | none => none
      | some (mo, r2) =>
        match expectChar '-' r2 with
        | none => none
        | some r3 =>
          match parse2 r3 with
          | none => none
          | some (d, r4) =>
            match r4 with
            | [] =>
              if 1 ≤ y ∧ 1 ≤ mo ∧ mo ≤ 12 ∧ 1 ≤ d ∧ d ≤ daysInMonth y mo then
                some ⟨y, mo, d, 0, 0, 0, none⟩
              else none
            | _sep :: r5 =>
              match parseHMS r5 with
              | none => none
              | some (h, mi, s, off) =>
                if 1 ≤ y ∧ 1 ≤ mo ∧ mo ≤ 12 ∧ 1 ≤ d ∧ d ≤ daysInMonth y mo
                    ∧ h ≤ 23 ∧ mi ≤ 59 ∧ s ≤ 59 then
                  some ⟨y, mo, d, h, mi, s, off⟩
                else none

/-- Preprocessing shared by `validate_iso_timestamp` and `iso_to_unix`: if
the string ends with `Z`, replace every `Z` with `+00:00`. -/
def zPreprocess (l : List Char) : List Char :=
  if endsWithZ l then replaceZ0000 l else l

/-- Model of `TimestampValidator.validate_iso_timestamp`
(`src/utils/time.py` lines 8–27). -/
def validate_iso_timestamp (s : String) : Bool :=
  (fromisoformat (zPreprocess s.data)).isSome

/-- Input type of `unix_to_iso` / `validate_unix_timestamp`: a Python value
that is either an `int` or a `str`. -/
inductive IntOrStr where
  | int (n : Int)
  | str (s : String)
  deriving Repr, DecidableEq

/-- Model of Python `int(s)` on strings: optional sign followed by one or
more ASCII digits (CPython's surrounding whitespace and underscore
tolerance is outside the model). -/
def pyIntOfString (s : String) : Option Int :=
  match s.data with
  | [] => none
  | '-' :: rest =>
    if rest ≠ [] ∧ rest.all Char.isDigit then
      some (-(rest.foldl (fun acc c => 10 * acc + digitVal c) 0 : Int))
    else none
  | '+' :: rest =>
    if rest ≠ [] ∧ rest.all Char.isDigit then
      some (rest.foldl (fun acc c => 10 * acc + digitVal c) 0 : Int)
    else none
  | l =>
    if l.all Char.isDigit then
      some (l.foldl (fun acc c => 10 * acc + digitVal c) 0 : Int)
    else none

/-- Model of `TimestampValidator.validate_unix_timestamp`
(`src/utils/time.py` lines 29–46): int-coerce strings, then check the
year-2000..2100 range. -/
def validate_unix_timestamp (t : IntOrStr) : Bool :=
  match t with
  | .int n => 946684800 ≤ n ∧ n ≤ 4102444800
  | .str s =>
    match pyIntOfString s with
    | some n => 946684800 ≤ n ∧ n ≤ 4102444800
    | none => false

/-- Error taxonomy of the time module: `ValueError` sites are distinguished
by raise site (the Python message strings are not modelled). -/
inductive TimeError where
  | invalidIsoFormat
  | invalidUnixTimestamp
  | convertFailed
  deriving Repr, DecidableEq

/-- Model of `iso_to_unix` (`src/utils/time.py` lines 48–68): validate the
ISO shape, replace a trailing `Z`, parse, and return the Unix timestamp.
No range check is performed here. -/
def iso_to_unix (s : String) : Except TimeError Int :=
  match fromisoformat (zPreprocess s.data) with
  | none => .error .invalidIsoFormat
  | some dt => .ok (timestampOf dt)

/-- Shared int branch of `unix_to_iso`: range-check then format with UTC
timezone and rewrite the `+00:00` suffix to `Z`. -/
def unixToIsoInt (n : Int) : Except TimeError String :=
  if validate_unix_timestamp (.int n) then
    .ok (String.mk (replacePlus0000 (isoformatUTC (fromtimestampUTC n.toNat))))
  else .error .invalidUnixTimestamp

/-- Model of `unix_to_iso` (`src/utils/time.py` lines 70–95): strings that
already validate as ISO are returned unchanged; other strings are
int-coerced (a failed coercion is the caught `ValueError`); integers are
range-checked and formatted. -/
def unix_to_iso (t : IntOrStr) : Except TimeError String :=
  match t with
  | .str s =>
    if validate_iso_timestamp s then .ok s
    else
      match pyIntOfString s with
      | none => .error .convertFailed
      | some n => unixToIsoInt n
  | .int n => unixToIsoInt n

/-! ### Model of `src/services/data_formatter.py` -/

/-- Python `round` ties-to-even on an exact rational, yielding an integer. -/
def roundHalfEven (x : ℚ) : ℤ :=
  if x - ⌊x⌋ < 1 / 2 then ⌊x⌋
  else if x - ⌊x⌋ > 1 / 2 then ⌊x⌋ + 1
  else if Even ⌊x⌋ then ⌊x⌋ else ⌊x⌋ + 1

/-- Model of Python `round(x, 3)` over exact rationals (binary-float
representation error is outside the model; every value the spec names is
exactly representable). -/
def pyRound3 (x : ℚ) : ℚ := (roundHalfEven (x * 1000) : ℚ) / 1000

/-- Constant `DENSITY_DIVISOR` of `data_formatter.py`. -/
def DENSITY_DIVISOR : ℚ := 100

/-- Constant `MAX_NORMALIZED_DENSITY` of `data_formatter.py`. -/
def MAX_NORMALIZED_DENSITY : ℚ := 1

/-- Model of `DataFormatter.normalize_density`
(`src/services/data_formatter.py` lines 43–53). -/
def normalize_density (raw_density_veh_km : ℚ) : ℚ :=
  if raw_density_veh_km ≤ MAX_NORMALIZED_DENSITY then
    pyRound3 raw_density_veh_km
  else
    pyRound3 (min (raw_density_veh_km / DENSITY_DIVISOR) MAX_NORMALIZED_DENSITY)

/-- Result dictionary of `ensure_vehicle_stats`, always carrying the four
required vehicle classes. -/
structure VehicleStatsDict where
  motorcycle : Int
  car : Int
  bus : Int
  truck : Int
  deriving Repr, DecidableEq

/-- Key constant for the `motorcycle` vehicle class. -/
def kMotorcycle : String := "motorcycle"

/-- Key constant for the `car` vehicle class. -/
def kCar : String := "car"

/-- Key constant for the `bus` vehicle class. -/
def kBus : String := "bus"

/-- Key constant for the `truck` vehicle class. -/
def kTruck : String := "truck"

/-- Model of `raw_stats.get(vtype, 0)` over an association-list dictionary. -/
def dictGetZero (l : List (String × Int)) (k : String) : Int :=
  match l.lookup k with
  | some v => v
  | none => 0

/-- Model of `DataFormatter.ensure_vehicle_stats`
(`src/services/data_formatter.py` lines 55–72): `none` models Python
`None`; an empty association list models an empty dict (both are falsy). -/
def ensure_vehicle_stats (raw_stats : Option (List (String × Int)))
    (fallback_vehicle_count : Int) : VehicleStatsDict :=
  match raw_stats with
  | none => ⟨0, fallback_vehicle_count, 0, 0⟩
  | some l =>
    if l = [] then ⟨0, fallback_vehicle_count, 0, 0⟩
    else ⟨dictGetZero l kMotorcycle, dictGetZero l kCar, dictGetZero l kBus,
      dictGetZero l kTruck⟩

/-! ### Model of `src/services/storage_proxy.py` download retry -/

/-- Retry configuration constants of `storage_proxy.py` (lines 17–20). -/
def MAX_DOWNLOAD_RETRIES : Nat := 5

/-- Base backoff delay in seconds. -/
def RETRY_DELAY_BASE : Nat := 2

/-- Backoff delay cap in seconds. -/
def RETRY_DELAY_MAX : Nat := 10

/-- The delay slept before the next attempt,
`min(RETRY_DELAY_BASE * (2 ** attempt), RETRY_DELAY_MAX)`. -/
def retryDelay (attempt : Nat) : Nat :=
  min (RETRY_DELAY_BASE * 2 ^ attempt) RETRY_DELAY_MAX

/-- Outcome of one download attempt, as observed inside the `try` body of
`download_from_storage`: a parsed result, a `requests` `HTTPError` raised
by `raise_for_status` (with its status code and whether the stringified
error contains "Record not found"), or any other exception (network
failure, malformed JSON, a `ValueError` from timestamp conversion, ...). -/
inductive AttemptOutcome (α : Type) where
  | success (result : α)
  | httpError (status : Nat) (recordNotFoundInMessage : Bool)
  | otherFailure
  deriving Repr, DecidableEq

/-- Exception propagating out of `download_from_storage`. -/
inductive DownloadError where
  | httpError (status : Nat) (recordNotFoundInMessage : Bool)
  | bareRaiseRuntimeError
  deriving Repr, DecidableEq

/-- Observable run of the download loop: final outcome, the sequence of
sleeps performed, and how many attempts were made. -/
structure DownloadRun (α : Type) where
  outcome : Except DownloadError α
  delays : List Nat
  attemptsMade : Nat
  deriving Repr

/-- Loop body of `StorageProxy.download_from_storage`
(`src/services/storage_proxy.py` lines 115–171), driven by a per-attempt
outcome oracle.  Control-flow notes, matching the Python indentation:
an `HTTPError` with status 500 whose message contains "Record not found"
is retried with backoff (re-raised on the last attempt); any other
`HTTPError` is re-raised immediately; every other exception is retried
with the same backoff, and on the last attempt the handler falls through
to a bare `raise` at loop-body level which, with no active exception,
raises `RuntimeError`.  The trailing `raise last_exception` after the
loop is unreachable (modelled by the zero-fuel case). -/
def downloadGo (oracle : Nat → AttemptOutcome α) :
    Nat → Nat → List Nat → DownloadRun α
  | _, 0, delays => ⟨.error .bareRaiseRuntimeError, delays, MAX_DOWNLOAD_RETRIES⟩
  | attempt, rem + 1, delays =>
    match oracle attempt with
    | .success r => ⟨.ok r, delays, attempt + 1⟩
    | .httpError status notFound =>
      if status = 500 ∧ notFound = true then
        if attempt < MAX_DOWNLOAD_RETRIES - 1 then
          downloadGo oracle (attempt + 1) rem (delays ++ [retryDelay attempt])
        else ⟨.error (.httpError status notFound), delays, attempt + 1⟩
      else ⟨.error (.httpError status notFound), delays, attempt + 1⟩
    | .otherFailure =>
      if attempt < MAX_DOWNLOAD_RETRIES - 1 then
        downloadGo oracle (attempt + 1) rem (delays ++ [retryDelay attempt])
      else ⟨.error .bareRaiseRuntimeError, delays, attempt + 1⟩

/-- Model of `StorageProxy.download_from_storage` as a function of the
per-attempt outcome oracle. -/
def download_from_storage (oracle : Nat → AttemptOutcome α) : DownloadRun α :=
  downloadGo oracle 0 MAX_DOWNLOAD_RETRIES []

/-! ### Model of `src/services/database_service.py` metadata registration -/

/-- Model of a `MetadataIndex` row (surrogate id and creation time are not
modelled; they play no role in the existence check). -/
structure MetadataEntry where
  type : String
  timestamp : Int
  traffic_light_id : String
  deriving Repr, DecidableEq

/-- The existence check of `register_metadata`: a row with the same
(type, timestamp, traffic_light_id) triple. -/
def metadataMatches (data_type : String) (timestamp : Int)
    (traffic_light_id : String) (e : MetadataEntry) : Bool :=
  e.type = data_type ∧ e.timestamp = timestamp
    ∧ e.traffic_light_id = traffic_light_id

/-- Model of `DatabaseService.register_metadata`
(`src/services/database_service.py` lines 13–49) over a list-valued store:
if a row with the triple exists the call returns with the store unchanged
(the silent no-op), otherwise the row is inserted and committed. -/
def register_metadata (db : List MetadataEntry) (data_type : String)
    (timestamp : Int) (traffic_light_id : String) : List MetadataEntry :=
  if db.any (metadataMatches data_type timestamp traffic_light_id) then db
  else db ++ [⟨data_type, timestamp, traffic_light_id⟩]

/-! ### JSON-object model and field-name constants for the validator -/

/-- Presence-aware JSON field: a key can be absent from the object, present
with value `None`, or present with a typed value.  Values of the wrong
dynamic type are outside the model; the validator paths exercised here
treat a `None` value the same way Python does at each site (noted per
definition). -/
inductive JField (α : Type) where
  | absent
  | nullv
  | val (a : α)
  deriving Repr, DecidableEq

/-- Python `key in payload`. -/
def JField.isPresent : JField α → Bool
  | .absent => false
  | _ => true

/-- Name of the `version` field. -/
def fVersion : String := "version"

/-- Name of the `type` field. -/
def fType : String := "type"

/-- Name of the `timestamp` field. -/
def fTimestamp : String := "timestamp"

/-- Name of the `traffic_light_id` field. -/
def fTrafficLightId : String := "traffic_light_id"

/-- Name of the `sensors` field. -/
def fSensors : String := "sensors"

/-- Name of the `controlled_edges` field. -/
def fControlledEdges : String := "controlled_edges"

/-- Name of the `metrics` field. -/
def fMetrics : String := "metrics"

/-- Name of the `vehicle_stats` field. -/
def fVehicleStats : String := "vehicle_stats"

/-- Name of the `optimization` field. -/
def fOptimization : String := "optimization"

/-- Name of the `impact` field. -/
def fImpact : String := "impact"

/-- Name of the `green_time_sec` field. -/
def fGreenTimeSec : String := "green_time_sec"

/-- Name of the `red_time_sec` field. -/
def fRedTimeSec : String := "red_time_sec"

/-- Name of the `reference_id` field. -/
def fReferenceId : String := "reference_id"

/-- Name of the `sensor_count` field. -/
def fSensorCount : String := "sensor_count"

/-- Name of the `optimizations` field. -/
def fOptimizations : String := "optimizations"

/-- Name of the `original_congestion` field. -/
def fOriginalCongestion : String := "original_congestion"

/-- Name of the `optimized_congestion` field. -/
def fOptimizedCongestion : String := "optimized_congestion"

/-- Name of the `original_category` field. -/
def fOriginalCategory : String := "original_category"

/-- Name of the `optimized_category` field. -/
def fOptimizedCategory : String := "optimized_category"

/-- Name of the `vehicles_per_minute` field. -/
def fVehiclesPerMinute : String := "vehicles_per_minute"

/-- Name of the `avg_speed_kmh` field. -/
def fAvgSpeedKmh : String := "avg_speed_kmh"

/-- Name of the `density` field. -/
def fDensity : String := "density"

/-- The `data` payload type. -/
def typeData : String := "data"

/-- The `optimization` payload type. -/
def typeOptimization : String := "optimization"

/-- The `batch-optimization` payload type. -/
def typeBatchOptimization : String := "batch-optimization"

/-- `DataValidator.ALLOWED_TYPES`. -/
def ALLOWED_TYPES : List String := [typeData, typeOptimization, typeBatchOptimization]

/-- The `none` congestion category. -/
def catNone : String := "none"

/-- The `mild` congestion category. -/
def catMild : String := "mild"

/-- The `severe` congestion category. -/
def catSevere : String := "severe"

/-- The valid congestion categories. -/
def validCategories : List String := [catNone, catMild, catSevere]

/-- Model of `re.match(r"^\d+$", s)`: a nonempty all-digit string (ASCII
digits; Unicode digit classes are outside the model). -/
def isNumericString (s : String) : Bool :=
  s.data ≠ [] && s.data.all Char.isDigit

/-- Split a character list on dots (the groups of
`^\d+(\.\d+)*$` matching). -/
def splitDots : List Char → List (List Char)
  | [] => [[]]
  | c :: rest =>
    if c = '.' then [] :: splitDots rest
    else
      match splitDots rest with
      | g :: gs => (c :: g) :: gs
      | [] => [[c]]

/-- Model of `re.match(r"^\d+(\.\d+)*$", s)`: nonempty digit groups joined
by single dots. -/
def isVersionString (s : String) : Bool :=
  (splitDots s.data).all fun g => g ≠ [] && g.all Char.isDigit

/-- Dictionary view of a `metrics` object. -/
structure MetricsDict where
  vehicles_per_minute : JField ℚ := .absent
  avg_speed_kmh : JField ℚ := .absent
  avg_circulation_time_sec : JField ℚ := .absent
  density : JField ℚ := .absent
  deriving Repr, DecidableEq

/-- Dictionary view of one sensor entry. -/
structure SensorDict where
  traffic_light_id : JField String := .absent
  controlled_edges : JField (List String) := .absent
  metrics : JField MetricsDict := .absent
  vehicle_stats : JField (List (String × Int)) := .absent
  deriving Repr, DecidableEq

/-- Dictionary view of an `optimization` detail object. -/
structure OptDetailsDict where
  green_time_sec : JField Int := .absent
  red_time_sec : JField Int := .absent
  deriving Repr, DecidableEq

/-- Dictionary view of an `impact` detail object. -/
structure ImpactDict where
  original_congestion : JField Int := .absent
  optimized_congestion : JField Int := .absent
  original_category : JField String := .absent
  optimized_category : JField String := .absent
  deriving Repr, DecidableEq

/-- Dictionary view of one entry of an `optimizations` list. -/
structure OptEntryDict where
  version : JField String := .absent
  type : JField String := .absent
  timestamp : JField IntOrStr := .absent
  traffic_light_id : JField String := .absent
  optimization : JField OptDetailsDict := .absent
  impact : JField ImpactDict := .absent
  deriving Repr, DecidableEq

/-- Dictionary view of a top-level payload, covering the key set inspected
by `validate_payload` and `validate_sync_service_input`. -/
structure Payload where
  version : JField String := .absent
  type : JField String := .absent
  timestamp : JField IntOrStr := .absent
  traffic_light_id : JField String := .absent
  sensors : JField (List SensorDict) := .absent
  controlled_edges : JField (List String) := .absent
  metrics : JField MetricsDict := .absent
  vehicle_stats : JField (List (String × Int)) := .absent
  reference_id : JField String := .absent
  sensor_count : JField Int := .absent
  optimizations : JField (List OptEntryDict) := .absent
  optimization : JField OptDetailsDict := .absent
  impact : JField ImpactDict := .absent
  deriving Repr, DecidableEq

/-- Dictionary view of an optimization response object, as consumed by
`validate_optimization_batch_response` and
`register_optimization_metadata`. -/
structure OptBatchDict where
  version : JField String := .absent
  type : JField String := .absent
  timestamp : JField IntOrStr := .absent
  traffic_light_id : JField String := .absent
  optimizations : JField (List OptEntryDict) := .absent
  optimization : JField OptDetailsDict := .absent
  impact : JField ImpactDict := .absent
  deriving Repr, DecidableEq

/-! ### Model of `src/models/validator.py` -/

/-- Error taxonomy of the validator: each `raise ValueError` site gets one
variant (message strings are not modelled).  Sites where Python would
raise `TypeError` on a present-but-`None` value (passing `None` to
`re.match`) are folded into the corresponding validation variant; no claim
distinguishes the two. -/
inductive VErr where
  | missingFields (fields : List String)
  | invalidVersion
  | invalidType
  | invalidTimestampFormat
  | invalidUnixTimestamp
  | invalidTimestampType
  | invalidTrafficLightId
  | sensorsNotNonEmptyList
  | sensorsTooMany
  | sensorMissingFields (i : Nat) (fields : List String)
  | sensorInvalidTrafficLightId (i : Nat)
  | refNotInSensors
  | missingOptTrafficLightId
  | optimizationNotDict
  | badGreenTime
  | badRedTime
  | impactNotDict
  | badOriginalCongestion
  | badOptimizedCongestion
  | badOriginalCategory
  | badOptimizedCategory
  | optimizationsNotNonEmptyList
  | optimizationsTooMany
  | optMissingTrafficLightId (i : Nat)
  | optMissingOptimization (i : Nat)
  | optMissingImpact (i : Nat)
  | optMissingFields (i : Nat) (fields : List String)
  | optInvalidTrafficLightId (i : Nat)
  | typeNotOptimization
  | optNotDict (i : Nat)
  | optMissingDetails (i : Nat) (fields : List String)
  | optBadGreenTime (i : Nat)
  | optBadRedTime (i : Nat)
  | optImpactNotDict (i : Nat)
  | optMissingImpactFields (i : Nat) (fields : List String)
  | optBadOriginalCongestion (i : Nat)
  | optBadOptimizedCongestion (i : Nat)
  | optBadOriginalCategory (i : Nat)
  | optBadOptimizedCategory (i : Nat)
  | sensorPydanticFailed (i : Nat)
  | syncInputNotData
  | syncInputNoSensors
  | syncSensorMissingFields (i : Nat) (fields : List String)
  | syncSensorMissingMetrics (i : Nat) (fields : List String)
  | syncSensorMetricNotNumeric (i : Nat)
  deriving Repr, DecidableEq

/-- Model of `DataValidator.validate_timestamp`: strings must validate as
ISO, ints as in-range Unix, anything else is rejected. -/
def validate_timestamp_field : JField IntOrStr → Except VErr Unit
  | .val (.str s) =>
    if validate_iso_timestamp s then .ok () else .error .invalidTimestampFormat
  | .val (.int n) =>
    if validate_unix_timestamp (.int n) then .ok ()
    else .error .invalidUnixTimestamp
  | _ => .error .invalidTimestampType

/-- Model of `DataValidator.validate_traffic_light_id` applied to a field,
returning the id on success. -/
def tlidCheck : JField String → Except VErr String
  | .val s => if isNumericString s then .ok s else .error .invalidTrafficLightId
  | _ => .error .invalidTrafficLightId

/-- Missing-field computation for the base required fields
`["version", "type", "timestamp"]`, in source order. -/
def baseMissing (p : Payload) : List String :=
  (if p.version.isPresent then [] else [fVersion])
    ++ (if p.type.isPresent then [] else [fType])
    ++ (if p.timestamp.isPresent then [] else [fTimestamp])

/-- Missing-field computation for one sensor's required fields, in source
order. -/
def sensorMissing (sd : SensorDict) : List String :=
  (if sd.traffic_light_id.isPresent then [] else [fTrafficLightId])
    ++ (if sd.controlled_edges.isPresent then [] else [fControlledEdges])
    ++ (if sd.metrics.isPresent then [] else [fMetrics])
    ++ (if sd.vehicle_stats.isPresent then [] else [fVehicleStats])

/-- Missing-field computation for the legacy single-sensor required fields,
in source order. -/
def legacyMissing (p : Payload) : List String :=
  (if p.traffic_light_id.isPresent then [] else [fTrafficLightId])
    ++ (if p.metrics.isPresent then [] else [fMetrics])
    ++ (if p.controlled_edges.isPresent then [] else [fControlledEdges])
    ++ (if p.vehicle_stats.isPresent then [] else [fVehicleStats])

/-- Per-sensor loop of the batch branch of
`DataValidator.validate_data_specific_fields`: check required fields and
id format, collecting the sensor ids. -/
def sensorsCheck : List SensorDict → Nat → Except VErr (List String)
  | [], _ => .ok []
  | sd :: rest, i =>
    if sensorMissing sd ≠ [] then .error (.sensorMissingFields i (sensorMissing sd))
    else
      match sd.traffic_light_id with
      | .val sid =>
        if ¬ isNumericString sid then .error (.sensorInvalidTrafficLightId i)
        else
          match sensorsCheck rest (i + 1) with
          | .error e => .error e
          | .ok ids => .ok (sid :: ids)
      | _ => .error (.sensorInvalidTrafficLightId i)

/-- Model of `DataValidator.validate_data_specific_fields`
(`src/models/validator.py` lines 49–91). -/
def validate_data_specific_fields (p : Payload) : Except VErr Bool :=
  if p.sensors.isPresent then
    if ¬ p.traffic_light_id.isPresent then .error (.missingFields [fTrafficLightId])
    else
      match tlidCheck p.traffic_light_id with
      | .error e => .error e
      | .ok ref =>
        match p.sensors with
        | .val l =>
          if l.length = 0 then .error .sensorsNotNonEmptyList
          else if l.length > 10 then .error .sensorsTooMany
          else
            match sensorsCheck l 0 with
            | .error e => .error e
            | .ok ids =>
              if ref ∈ ids then .ok true else .error .refNotInSensors
        | _ => .error .sensorsNotNonEmptyList
  else
    if legacyMissing p ≠ [] then .error (.missingFields (legacyMissing p))
    else
      match tlidCheck p.traffic_light_id with
      | .error e => .error e
      | .ok _ => .ok true

/-- Model of `DataValidator.validate_optimization_specific_fields`
(`src/models/validator.py` lines 93–138), shared by the `optimization`
branch of `validate_payload`. -/
def validate_optimization_specific_fields (optf : JField OptDetailsDict)
    (impf : JField ImpactDict) : Except VErr Bool :=
  let missing := (if optf.isPresent then [] else [fOptimization])
    ++ (if impf.isPresent then [] else [fImpact])
  if missing ≠ [] then .error (.missingFields missing)
  else
    match optf with
    | .val od =>
      let missingOd := (if od.green_time_sec.isPresent then [] else [fGreenTimeSec])
        ++ (if od.red_time_sec.isPresent then [] else [fRedTimeSec])
      if missingOd ≠ [] then .error (.missingFields missingOd)
      else
        match od.green_time_sec with
        | .val g =>
          if g ≤ 0 then .error .badGreenTime
          else
            match od.red_time_sec with
            | .val r =>
              if r ≤ 0 then .error .badRedTime
              else
                match impf with
                | .val im =>
                  let missingIm :=
                    (if im.original_congestion.isPresent then [] else [fOriginalCongestion])
                    ++ (if im.optimized_congestion.isPresent then [] else [fOptimizedCongestion])
                    ++ (if im.original_category.isPresent then [] else [fOriginalCategory])
                    ++ (if im.optimized_category.isPresent then [] else [fOptimizedCategory])
                  if missingIm ≠ [] then .error (.missingFields missingIm)
                  else
                    match im.original_congestion with
                    | .val _ =>
                      match im.optimized_congestion with
                      | .val _ =>
                        match im.original_category with
                        | .val c1 =>
                          if ¬ validCategories.contains c1 then
                            .error .badOriginalCategory
                          else
                            match im.optimized_category with
                            | .val c2 =>
                              if ¬ validCategories.contains c2 then
                                .error .badOptimizedCategory
                              else .ok true
                            | _ => .error .badOptimizedCategory
                        | _ => .error .badOriginalCategory
                      | _ => .error .badOptimizedCongestion
                    | _ => .error .badOriginalCongestion
                | _ => .error .impactNotDict
            | _ => .error .badRedTime
        | _ => .error .badGreenTime
    | _ => .error .optimizationNotDict

/-- Per-entry loop of the `batch-optimization` branch of
`validate_payload` (presence of id/optimization/impact plus id format). -/
def batchOptEntriesCheck : List OptEntryDict → Nat → Except VErr Unit
  | [], _ => .ok ()
  | e :: rest, i =>
    if ¬ e.traffic_light_id.isPresent then .error (.optMissingTrafficLightId i)
    else if ¬ e.optimization.isPresent then .error (.optMissingOptimization i)
    else if ¬ e.impact.isPresent then .error (.optMissingImpact i)
    else
      match e.traffic_light_id with
      | .val s =>
        if isNumericString s then batchOptEntriesCheck rest (i + 1)
        else .error (.optInvalidTrafficLightId i)
      | _ => .error (.optInvalidTrafficLightId i)

/-- Model of `validate_payload` (`src/models/validator.py` lines 140–203).
Fail-fast: the first defect encountered is raised. -/
def validate_payload (p : Payload) : Except VErr Bool :=
  if baseMissing p ≠ [] then .error (.missingFields (baseMissing p))
  else
    match p.version with
    | .val v =>
      if ¬ isVersionString v then .error .invalidVersion
      else
        match p.type with
        | .val t =>
          if ¬ ALLOWED_TYPES.contains t then .error .invalidType
          else
            match validate_timestamp_field p.timestamp with
            | .error e => .error e
            | .ok _ =>
              if t = typeData then validate_data_specific_fields p
              else if t = typeOptimization then
                if ¬ p.traffic_light_id.isPresent then
                  .error .missingOptTrafficLightId
                else
                  match tlidCheck p.traffic_light_id with
                  | .error e => .error e
                  | .ok _ =>
                    validate_optimization_specific_fields p.optimization p.impact
              else
                let missingB := (if p.reference_id.isPresent then [] else [fReferenceId])
                  ++ (if p.sensor_count.isPresent then [] else [fSensorCount])
                  ++ (if p.optimizations.isPresent then [] else [fOptimizations])
                if missingB ≠ [] then .error (.missingFields missingB)
                else
                  match p.optimizations with
                  | .val l =>
                    if l.length = 0 then .error .optimizationsNotNonEmptyList
                    else
                      match batchOptEntriesCheck l 0 with
                      | .error e => .error e
                      | .ok _ => .ok true
                  | _ => .error .optimizationsNotNonEmptyList
        | _ => .error .invalidType
    | _ => .error .invalidVersion

/-- Per-sensor loop of `validate_sync_service_input`. -/
def syncSensorsCheck : List SensorDict → Nat → Except VErr Bool
  | [], _ => .ok true
  | sd :: rest, i =>
    let missing := (if sd.traffic_light_id.isPresent then [] else [fTrafficLightId])
      ++ (if sd.metrics.isPresent then [] else [fMetrics])
    if missing ≠ [] then .error (.syncSensorMissingFields i missing)
    else
      let m := match sd.metrics with
        | .val m => m
        | _ => {}
      let missingM := (if m.vehicles_per_minute.isPresent then [] else [fVehiclesPerMinute])
        ++ (if m.avg_speed_kmh.isPresent then [] else [fAvgSpeedKmh])
        ++ (if m.density.isPresent then [] else [fDensity])
      if missingM ≠ [] then .error (.syncSensorMissingMetrics i missingM)
      else
        match m.vehicles_per_minute, m.avg_speed_kmh, m.density with
        | .val _, .val _, .val _ => syncSensorsCheck rest (i + 1)
        | _, _, _ => .error (.syncSensorMetricNotNumeric i)

/-- Model of `validate_sync_service_input`
(`src/models/validator.py` lines 245–290). -/
def validate_sync_service_input (p : Payload) : Except VErr Bool :=
  match p.type with
  | .val t =>
    if t ≠ typeData then .error .syncInputNotData
    else if ¬ p.sensors.isPresent then .error .syncInputNoSensors
    else
      match p.sensors with
      | .val l =>
        if l.length = 0 then .error .sensorsNotNonEmptyList
        else if l.length > 10 then .error .sensorsTooMany
        else syncSensorsCheck l 0
      | _ => .error .sensorsNotNonEmptyList
  | _ => .error .syncInputNotData

/-- Per-entry loop of `validate_optimization_batch_response`. -/
def batchRespEntriesCheck : List OptEntryDict → Nat → Except VErr Bool
  | [], _ => .ok true
  | e :: rest, i =>
    let missing := (if e.version.isPresent then [] else [fVersion])
      ++ (if e.type.isPresent then [] else [fType])
      ++ (if e.timestamp.isPresent then [] else [fTimestamp])
      ++ (if e.traffic_light_id.isPresent then [] else [fTrafficLightId])
      ++ (if e.optimization.isPresent then [] else [fOptimization])
      ++ (if e.impact.isPresent then [] else [fImpact])
    if missing ≠ [] then .error (.optMissingFields i missing)
    else
      match e.traffic_light_id with
      | .val s =>
        if ¬ isNumericString s then .error (.optInvalidTrafficLightId i)
        else
          match e.optimization with
          | .val od =>
            let missingOd := (if od.green_time_sec.isPresent then [] else [fGreenTimeSec])
              ++ (if od.red_time_sec.isPresent then [] else [fRedTimeSec])
            if missingOd ≠ [] then .error (.optMissingDetails i missingOd)
            else
              match od.green_time_sec with
              | .val g =>
                if g ≤ 0 then .error (.optBadGreenTime i)
                else
                  match od.red_time_sec with
                  | .val r =>
                    if r ≤ 0 then .error (.optBadRedTime i)
                    else
                      match e.impact with
                      | .val im =>
                        let missingIm :=
                          (if im.original_congestion.isPresent then [] else [fOriginalCongestion])
                          ++ (if im.optimized_congestion.isPresent then [] else [fOptimizedCongestion])
                          ++ (if im.original_category.isPresent then [] else [fOriginalCategory])
                          ++ (if im.optimized_category.isPresent then [] else [fOptimizedCategory])
                        if missingIm ≠ [] then .error (.optMissingImpactFields i missingIm)
                        else
                          match im.original_congestion with
                          | .val _ =>
                            match im.optimized_congestion with
                            | .val _ =>
                              match im.original_category with
                              | .val c1 =>
                                if ¬ validCategories.contains c1 then
                                  .error (.optBadOriginalCategory i)
                                else
                                  match im.optimized_category with
                                  | .val c2 =>
                                    if ¬ validCategories.contains c2 then
                                      .error (.optBadOptimizedCategory i)
                                    else batchRespEntriesCheck rest (i + 1)
                                  | _ => .error (.optBadOptimizedCategory i)
                              | _ => .error (.optBadOriginalCategory i)
                            | _ => .error (.optBadOptimizedCongestion i)
                          | _ => .error (.optBadOriginalCongestion i)
                      | _ => .error (.optImpactNotDict i)
                  | _ => .error (.optBadRedTime i)
              | _ => .error (.optBadGreenTime i)
          | _ => .error (.optNotDict i)
      | _ => .error (.optInvalidTrafficLightId i)

/-- The optimization response: a single object or a JSON list. -/
inductive SyncResponse where
  | single (r : OptBatchDict)
  | list (rs : List OptBatchDict)
  deriving Repr, DecidableEq

/-- Model of `validate_optimization_batch_response`
(`src/models/validator.py` lines 292–396).  A list response fails the
required-base-fields membership test (`field in <list>` is list
membership in Python), so every base field is reported missing. -/
def validate_optimization_batch_response (resp : SyncResponse) : Except VErr Bool :=
  match resp with
  | .list _ => .error (.missingFields [fVersion, fType, fTimestamp, fTrafficLightId])
  | .single p =>
    let missing := (if p.version.isPresent then [] else [fVersion])
      ++ (if p.type.isPresent then [] else [fType])
      ++ (if p.timestamp.isPresent then [] else [fTimestamp])
      ++ (if p.traffic_light_id.isPresent then [] else [fTrafficLightId])
    if missing ≠ [] then .error (.missingFields missing)
    else
      match p.version with
      | .val v =>
        if ¬ isVersionString v then .error .invalidVersion
        else
          match p.type with
          | .val t =>
            if t ≠ typeOptimization then .error .typeNotOptimization
            else
              match validate_timestamp_field p.timestamp with
              | .error e => .error e
              | .ok _ =>
                match tlidCheck p.traffic_light_id with
                | .error e => .error e
                | .ok _ =>
                  if p.optimizations.isPresent then
                    match p.optimizations with
                    | .val l =>
                      if l.length = 0 then .error .optimizationsNotNonEmptyList
                      else if l.length > 10 then .error .optimizationsTooMany
                      else batchRespEntriesCheck l 0
                    | _ => .error .optimizationsNotNonEmptyList
                  else
                    validate_optimization_specific_fields p.optimization p.impact
          | _ => .error .typeNotOptimization
      | _ => .error .invalidVersion
/-! ### Model of `src/models/schemas/data_schema.py` and the pipeline -/

/-- Model of the pydantic `TrafficMetrics` value object. -/
structure TrafficMetrics where
  vehicles_per_minute : Int
  avg_speed_kmh : ℚ
  avg_circulation_time_sec : ℚ
  density : ℚ
  deriving Repr, DecidableEq

/-- Model of the pydantic `VehicleStats` value object. -/
structure VehicleStats where
  motorcycle : Int
  car : Int
  bus : Int
  truck : Int
  deriving Repr, DecidableEq

/-- Model of the pydantic `SensorData` value object. -/
structure SensorData where
  traffic_light_id : String
  controlled_edges : List String
  metrics : TrafficMetrics
  vehicle_stats : VehicleStats
  deriving Repr, DecidableEq

/-- Model of the pydantic `TrafficData` model: unified shape carrying
either a sensors list (batch) or the legacy inline single-sensor fields
(`None`-valued fields are `none`). -/
structure TrafficData where
  version : String
  type : String
  timestamp : String
  traffic_light_id : String
  sensors : Option (List SensorData)
  controlled_edges : Option (List String)
  metrics : Option TrafficMetrics
  vehicle_stats : Option VehicleStats
  deriving Repr, DecidableEq

/-- Model of `TrafficData.is_batch`:
`self.sensors is not None and len(self.sensors) > 0`. -/
def TrafficData.is_batch (d : TrafficData) : Bool :=
  match d.sensors with
  | none => false
  | some l => decide (0 < l.length)

/-- Model of `TrafficData.is_single_sensor`: all three legacy fields
present. -/
def TrafficData.is_single_sensor (d : TrafficData) : Bool :=
  d.controlled_edges.isSome && d.metrics.isSome && d.vehicle_stats.isSome

/-- Model of `TrafficData.to_batch_format`
(`src/models/schemas/data_schema.py` lines 83–103): batch data is
returned unchanged; single-sensor data is lifted into a one-element
sensors list; anything else raises `ValueError`. -/
def TrafficData.to_batch_format (d : TrafficData) : Except Unit TrafficData :=
  if d.is_batch then .ok d
  else if ¬ d.is_single_sensor then .error ()
  else
    match d.controlled_edges, d.metrics, d.vehicle_stats with
    | some ce, some me, some vs =>
      let sensor : SensorData :=
        { traffic_light_id := d.traffic_light_id, controlled_edges := ce,
          metrics := me, vehicle_stats := vs }
      .ok { version := d.version, type := d.type, timestamp := d.timestamp,
            traffic_light_id := d.traffic_light_id, sensors := some [sensor],
            controlled_edges := none, metrics := none, vehicle_stats := none }
    | _, _, _ => .error ()

/-- Dictionary view of a `TrafficMetrics` value (pydantic `.dict()`). -/
def dictOfMetrics (m : TrafficMetrics) : MetricsDict :=
  { vehicles_per_minute := .val (m.vehicles_per_minute : ℚ),
    avg_speed_kmh := .val m.avg_speed_kmh,
    avg_circulation_time_sec := .val m.avg_circulation_time_sec,
    density := .val m.density }

/-- Dictionary view of a `VehicleStats` value (pydantic `.dict()`). -/
def dictOfVehicleStats (v : VehicleStats) : List (String × Int) :=
  [(kMotorcycle, v.motorcycle), (kCar, v.car), (kBus, v.bus), (kTruck, v.truck)]

/-- Dictionary view of a `SensorData` value (pydantic `.dict()`). -/
def dictOfSensorData (s : SensorData) : SensorDict :=
  { traffic_light_id := .val s.traffic_light_id,
    controlled_edges := .val s.controlled_edges,
    metrics := .val (dictOfMetrics s.metrics),
    vehicle_stats := .val (dictOfVehicleStats s.vehicle_stats) }

/-- Dictionary view of a `TrafficData` value: pydantic `.dict()` includes
every model field, with `None` for unset optional fields. -/
def dictOfTrafficData (d : TrafficData) : Payload :=
  { version := .val d.version, type := .val d.type,
    timestamp := .val (.str d.timestamp),
    traffic_light_id := .val d.traffic_light_id,
    sensors := match d.sensors with
      | none => .nullv
      | some l => .val (l.map dictOfSensorData),
    controlled_edges := match d.controlled_edges with
      | none => .nullv
      | some l => .val l,
    metrics := match d.metrics with
      | none => .nullv
      | some m => .val (dictOfMetrics m),
    vehicle_stats := match d.vehicle_stats with
      | none => .nullv
      | some v => .val (dictOfVehicleStats v) }

/-- Model of the pydantic constraints on a `TrafficMetrics` built from a
dictionary (all four fields required, `ge`/`le` bounds). -/
def metricsOk (m : MetricsDict) : Bool :=
  match m.vehicles_per_minute, m.avg_speed_kmh, m.avg_circulation_time_sec,
      m.density with
  | .val vpm, .val sp, .val ct, .val dn =>
    0 ≤ vpm ∧ 0 ≤ sp ∧ sp ≤ 200 ∧ 0 ≤ ct ∧ 0 ≤ dn ∧ dn ≤ 1
  | _, _, _, _ => false

/-- Model of the pydantic constraints on a `VehicleStats` built from a
dictionary (all four classes required and nonnegative). -/
def vehicleStatsOk (l : List (String × Int)) : Bool :=
  match l.lookup kMotorcycle, l.lookup kCar, l.lookup kBus, l.lookup kTruck with
  | some a, some b, some c, some d => 0 ≤ a ∧ 0 ≤ b ∧ 0 ≤ c ∧ 0 ≤ d
  | _, _, _, _ => false

/-- Model of constructing `SensorData(**sensor)` in
`DataProcessor.process_data_batch`: required fields, numeric-string id,
nonempty edge list, metric bounds, vehicle-stat bounds. -/
def sensorPydanticOk (sd : SensorDict) : Bool :=
  match sd.traffic_light_id, sd.controlled_edges, sd.metrics,
      sd.vehicle_stats with
  | .val tl, .val ce, .val m, .val vs =>
    isNumericString tl ∧ 0 < ce.length ∧ metricsOk m ∧ vehicleStatsOk vs
  | _, _, _, _ => false

/-- Per-sensor pydantic validation loop of
`DataProcessor.process_data_batch`. -/
def sensorsPydanticCheck : List SensorDict → Nat → Except VErr Unit
  | [], _ => .ok ()
  | sd :: rest, i =>
    if sensorPydanticOk sd then sensorsPydanticCheck rest (i + 1)
    else .error (.sensorPydanticFailed i)

/-- Model of `normalize_timestamp` (`src/utils/time.py` lines 97–119). -/
def normalize_timestamp (t : IntOrStr) : Except TimeError (String × Int) :=
  match t with
  | .str s =>
    if validate_iso_timestamp s then
      match iso_to_unix s with
      | .ok n => .ok (s, n)
      | .error e => .error e
    else .error .invalidIsoFormat
  | .int n =>
    if validate_unix_timestamp (.int n) then
      match unix_to_iso (.int n) with
      | .ok s => .ok (s, n)
      | .error e => .error e
    else .error .invalidUnixTimestamp

/-- Pipeline error taxonomy, one variant per failing step of
`ProcessService.process_data_batch` / the `/process` endpoint. -/
inductive PipeErr where
  | invalidFormat400
  | valueErr (e : VErr)
  | timeErr (e : TimeError)
  | uploadFailed
  | downloadFailed (e : DownloadError)
  | syncFailed
  | uploadOptimizedFailed
  deriving Repr, DecidableEq

/-- The success response assembled by
`ResponseFactory.processing_success(batch_data.type, ...)`. -/
structure SuccessResponse where
  data_type : String
  traffic_light_id : String
  timestamp : String
  deriving Repr, DecidableEq

/-- Environment oracle for the pipeline's external collaborators: the
storage upload outcome, the per-attempt download outcomes (after response
processing), the optimization response, and the optimized-upload
outcome. -/
structure PipelineEnv where
  uploadOk : Bool
  download : Nat → AttemptOutcome Payload
  sync : Except Unit SyncResponse
  uploadOptOk : Bool

/-- Model of `DataProcessor.process_data_batch`
(`src/services/data_processor.py` lines 12–53): validate the payload,
validate each sensor with the pydantic model, normalize the timestamp,
and return the processed batch with its internal Unix timestamp. -/
def dataProcessorProcessBatch (p : Payload) : Except PipeErr (Payload × Int) :=
  match validate_payload p with
  | .error e => .error (.valueErr e)
  | .ok _ =>
    let sensorsList := match p.sensors with
      | .val l => l
      | _ => []
    match sensorsPydanticCheck sensorsList 0 with
    | .error e => .error (.valueErr e)
    | .ok _ =>
      match p.timestamp with
      | .val ts =>
        match normalize_timestamp ts with
        | .error e => .error (.timeErr e)
        | .ok (iso, unix) => .ok ({ p with timestamp := .val (.str iso) }, unix)
      | _ => .error (.timeErr .convertFailed)

/-- Projection used for the metadata triple: the pipeline reads
`processed_batch["type"]` and `processed_batch["traffic_light_id"]`, which
`validate_payload` has established to be present strings; the fallback
branch is unreachable on validated payloads. -/
def jStringOf : JField String → String
  | .val s => s
  | _ => ""

/-- One registration of `register_optimization_metadata` for an object
carrying `timestamp` and `traffic_light_id` fields.  The code converts
`obj["timestamp"]` with `iso_to_unix`; a missing or non-string timestamp
would raise (`KeyError` / `AttributeError`), modelled as an error. -/
def regOptOne (db : List MetadataEntry) (tsf : JField IntOrStr)
    (tlf : JField String) : Except TimeError (List MetadataEntry) :=
  match tsf, tlf with
  | .val (.str s), .val tl =>
    match iso_to_unix s with
    | .ok n => .ok (register_metadata db typeOptimization n tl)
    | .error e => .error e
  | _, _ => .error .convertFailed

/-- Loop of `register_optimization_metadata` over an `optimizations`
list. -/
def regOptEntries : List MetadataEntry → List OptEntryDict →
    Except TimeError (List MetadataEntry)
  | db, [] => .ok db
  | db, e :: rest =>
    match regOptOne db e.timestamp e.traffic_light_id with
    | .error er => .error er
    | .ok db2 => regOptEntries db2 rest

/-- Loop of `register_optimization_metadata` over a list response. -/
def regOptList : List MetadataEntry → List OptBatchDict →
    Except TimeError (List MetadataEntry)
  | db, [] => .ok db
  | db, r :: rest =>
    match regOptOne db r.timestamp r.traffic_light_id with
    | .error er => .error er
    | .ok db2 => regOptList db2 rest

/-- Model of `DatabaseService.register_optimization_metadata`
(`src/services/database_service.py` lines 51–108). -/
def register_optimization_metadata (db : List MetadataEntry)
    (resp : SyncResponse) : Except TimeError (List MetadataEntry) :=
  match resp with
  | .list rs => regOptList db rs
  | .single r =>
    if r.optimizations.isPresent then
      match r.optimizations with
      | .val entries => regOptEntries db entries
      | _ => .error .convertFailed
    else regOptOne db r.timestamp r.traffic_light_id

/-- Model of `ProcessService.process_data_batch`
(`src/services/process_service.py` lines 62–107) over the environment
oracle, threading the metadata store through the two registration steps.
Failures after the first registration leave that registration in place
(the local commit is not rolled back by later pipeline failures). -/
def process_data_batch (env : PipelineEnv) (db : List MetadataEntry)
    (batch : TrafficData) :
    Except PipeErr SuccessResponse × List MetadataEntry :=
  match dataProcessorProcessBatch (dictOfTrafficData batch) with
  | .error e => (.error e, db)
  | .ok (pb, unixTs) =>
    if env.uploadOk = false then (.error .uploadFailed, db)
    else
      let db1 := register_metadata db (jStringOf pb.type) unixTs
        (jStringOf pb.traffic_light_id)
      match (download_from_storage env.download).outcome with
      | .error e => (.error (.downloadFailed e), db1)
      | .ok fetched =>
        match validate_sync_service_input fetched with
        | .error e => (.error (.valueErr e), db1)
        | .ok _ =>
          match env.sync with
          | .error _ => (.error .syncFailed, db1)
          | .ok optimized =>
            match validate_optimization_batch_response optimized with
            | .error e => (.error (.valueErr e), db1)
            | .ok _ =>
              if env.uploadOptOk = false then
                (.error .uploadOptimizedFailed, db1)
              else
                match register_optimization_metadata db1 optimized with
                | .error e => (.error (.timeErr e), db1)
                | .ok db2 =>
                  (.ok ⟨batch.type, batch.traffic_light_id, batch.timestamp⟩,
                    db2)

/-- Model of the `/process` endpoint (`src/api/server.py` lines 50–70):
batch data goes straight to the pipeline; single-sensor data is lifted
with `to_batch_format` first; anything else is a 400. -/
def process (env : PipelineEnv) (db : List MetadataEntry)
    (data : TrafficData) :
    Except PipeErr SuccessResponse × List MetadataEntry :=
  if data.is_batch then process_data_batch env db data
  else if data.is_single_sensor then
    match data.to_batch_format with
    | .ok batch => process_data_batch env db batch
    | .error _ => (.error .invalidFormat400, db)
  else (.error .invalidFormat400, db)
/-! ### Concrete example payloads used by the claims -/

/-- Version string used by the example payloads. -/
def exVersion : String := "1.0"

/-- The id "5". -/
def idFive : String := "5"

/-- The id "6". -/
def idSix : String := "6"

/-- The id "9". -/
def idNine : String := "9"

/-- A sensor entry carrying the four required keys (contents besides the id
are irrelevant to `validate_payload`). -/
def exampleSensor (id : String) : SensorDict :=
  { traffic_light_id := .val id, controlled_edges := .nullv,
    metrics := .nullv, vehicle_stats := .nullv }

/-- A batch data envelope with reference id `ref` and sensor ids `ids`. -/
def exampleBatch (ref : String) (ids : List String) : Payload :=
  { version := .val exVersion, type := .val typeData,
    timestamp := .val (.int 1700000000), traffic_light_id := .val ref,
    sensors := .val (ids.map exampleSensor) }

/-! ### Theorems: calendar groundwork -/

theorem isLeapYear_iff (y : Nat) :
    isLeapYear y = true ↔ (y % 4 = 0 ∧ (y % 100 ≠ 0 ∨ y % 400 = 0)) := by
  unfold isLeapYear
  simp [Bool.and_eq_true, Bool.or_eq_true, decide_eq_true_eq]

theorem daysInYear_eq (y : Nat) :
    daysInYear y = if y % 4 = 0 ∧ (y % 100 ≠ 0 ∨ y % 400 = 0) then 366 else 365 := by
  unfold daysInYear
  by_cases h : y % 4 = 0 ∧ (y % 100 ≠ 0 ∨ y % 400 = 0)
  · rw [if_pos ((isLeapYear_iff y).mpr h), if_pos h]
  · rw [if_neg (fun hb => h ((isLeapYear_iff y).mp hb)), if_neg h]

set_option maxHeartbeats 1600000 in
theorem daysBeforeYear_succ (y : Nat) (hy : 1 ≤ y) :
    daysBeforeYear (y + 1) = daysBeforeYear y + daysInYear y := by
  rw [daysInYear_eq]
  unfold daysBeforeYear
  simp only [Nat.add_sub_cancel]
  split_ifs with h
  · omega
  · push_neg at h
    by_cases h4 : y % 4 = 0
    · obtain ⟨h100, h400⟩ := h h4
      omega
    · clear h
      omega

theorem daysBeforeYear_mono {a b : Nat} (ha : 1 ≤ a) (h : a ≤ b) :
    daysBeforeYear a ≤ daysBeforeYear b := by
  induction b with
  | zero => omega
  | succ n ih =>
    by_cases hn : a ≤ n
    · have := daysBeforeYear_succ n (by omega)
      have := ih hn
      omega
    · have he : a = n + 1 := by omega
      rw [he]

theorem daysInYear_ge (y : Nat) : 365 ≤ daysInYear y := by
  unfold daysInYear
  split_ifs <;> omega

/-- Soundness of the fuelled year walk: with enough fuel it returns a year
`Y ≥ y` and a day-of-year `doy < daysInYear Y` accounting exactly for the
input day count. -/
theorem yearWalk_sound : ∀ fuel y z, 1 ≤ y → z + 1 ≤ 365 * fuel →
    daysBeforeYear (yearWalk fuel y z).1 + (yearWalk fuel y z).2
        = daysBeforeYear y + z
      ∧ (yearWalk fuel y z).2 < daysInYear (yearWalk fuel y z).1
      ∧ y ≤ (yearWalk fuel y z).1 := by
  intro fuel
  induction fuel with
  | zero => intro y z _ hz; omega
  | succ f ih =>
    intro y z hy hz
    unfold yearWalk
    split_ifs with h
    · exact ⟨rfl, h, Nat.le_refl y⟩
    · have h365 := daysInYear_ge y
      have hz2 : (z - daysInYear y) + 1 ≤ 365 * f := by omega
      obtain ⟨e1, e2, e3⟩ := ih (y + 1) (z - daysInYear y) (by omega) hz2
      refine ⟨?_, e2, by omega⟩
      rw [daysBeforeYear_succ y hy] at e1
      omega

theorem monthLengths_false :
    monthLengths false = [31, 28, 31, 30, 31, 30, 31, 31, 30, 31, 30, 31] := rfl

theorem monthLengths_true :
    monthLengths true = [31, 29, 31, 30, 31, 30, 31, 31, 30, 31, 30, 31] := rfl

/-- Generic soundness of the month walk over any list of month lengths. -/
theorem monthWalk_generic : ∀ lens (m doy : Nat), doy < lens.sum →
    m ≤ (monthWalk lens m doy).1
    ∧ (monthWalk lens m doy).1 - m < lens.length
    ∧ (monthWalk lens m doy).2 < lens.getD ((monthWalk lens m doy).1 - m) 0
    ∧ (lens.take ((monthWalk lens m doy).1 - m)).sum + (monthWalk lens m doy).2
        = doy := by
  intro lens
  induction lens with
  | nil => intro m doy h; simp at h
  | cons L rest ih =>
    intro m doy h
    unfold monthWalk
    split_ifs with hL
    · simp only [Nat.sub_self, List.getD_cons_zero, List.take_zero, List.sum_nil]
      exact ⟨Nat.le_refl m, by simp, hL, by omega⟩
    · have hrest : doy - L < rest.sum := by
        simp only [List.sum_cons] at h
        omega
      obtain ⟨e1, e2, e3, e4⟩ := ih (m + 1) (doy - L) hrest
      have hM : (monthWalk rest (m + 1) (doy - L)).1 - m
          = ((monthWalk rest (m + 1) (doy - L)).1 - (m + 1)) + 1 := by omega
      refine ⟨by omega, by simp only [List.length_cons]; omega, ?_, ?_⟩
      · rw [hM, List.getD_cons_succ]
        exact e3
      · rw [hM, List.take_succ_cons, List.sum_cons]
        omega

theorem monthLengths_sum (y : Nat) :
    (monthLengths (isLeapYear y)).sum = daysInYear y := by
  cases hl : isLeapYear y <;> simp [monthLengths, daysInYear, hl]

theorem daysInMonth_getD (y k : Nat) (h1 : 1 ≤ k) (h2 : k ≤ 12) :
    daysInMonth y k = (monthLengths (isLeapYear y)).getD (k - 1) 0 := by
  cases hl : isLeapYear y <;> interval_cases k <;>
    simp [daysInMonth, monthLengths, hl]

theorem daysBeforeMonth_take (y k : Nat) (h1 : 1 ≤ k) (h2 : k ≤ 12) :
    daysBeforeMonth y k = ((monthLengths (isLeapYear y)).take (k - 1)).sum := by
  cases hl : isLeapYear y <;> interval_cases k <;>
    simp [daysBeforeMonth, monthLengths, hl]

/-- Soundness of the month walk over a year's month lengths: the result is a
month 1–12 with a day-of-month below that month's length, accounting exactly
for the day-of-year. -/
theorem monthWalk_sound (y doy : Nat) (hdoy : doy < daysInYear y) :
    1 ≤ (monthWalk (monthLengths (isLeapYear y)) 1 doy).1
    ∧ (monthWalk (monthLengths (isLeapYear y)) 1 doy).1 ≤ 12
    ∧ (monthWalk (monthLengths (isLeapYear y)) 1 doy).2 + 1
        ≤ daysInMonth y (monthWalk (monthLengths (isLeapYear y)) 1 doy).1
    ∧ daysBeforeMonth y (monthWalk (monthLengths (isLeapYear y)) 1 doy).1
        + (monthWalk (monthLengths (isLeapYear y)) 1 doy).2 = doy := by
  have hsum : doy < (monthLengths (isLeapYear y)).sum := by
    rw [monthLengths_sum]; exact hdoy
  obtain ⟨e1, e2, e3, e4⟩ := monthWalk_generic (monthLengths (isLeapYear y)) 1 doy hsum
  have hlen : (monthLengths (isLeapYear y)).length = 12 := by
    cases isLeapYear y <;> rfl
  rw [hlen] at e2
  have hub : (monthWalk (monthLengths (isLeapYear y)) 1 doy).1 ≤ 12 := by omega
  refine ⟨e1, hub, ?_, ?_⟩
  · rw [daysInMonth_getD y _ e1 hub]
    omega
  · rw [daysBeforeMonth_take y _ e1 hub]
    omega

/-! ### Theorems: digits, parsing and replacement -/

theorem digitChar_isDigit (n : Nat) (h : n < 10) : (digitChar n).isDigit = true := by
  interval_cases n <;> decide

theorem digitVal_digitChar (n : Nat) (h : n < 10) : digitVal (digitChar n) = n := by
  interval_cases n <;> decide

theorem digitChar_good (n : Nat) (h : n < 10) :
    digitChar n ≠ '+' ∧ digitChar n ≠ 'Z' := by
  interval_cases n <;> exact ⟨by decide, by decide⟩

theorem parse2_pad2 (n : Nat) (h : n < 100) (r : List Char) :
    parse2 (pad2 n ++ r) = some (n, r) := by
  have h1 : n / 10 < 10 := by omega
  have h2 : n % 10 < 10 := by omega
  simp only [pad2, List.cons_append, List.nil_append, parse2,
    digitChar_isDigit _ h1, digitChar_isDigit _ h2, Bool.and_self, if_pos,
    digitVal_digitChar _ h1, digitVal_digitChar _ h2, Option.some.injEq,
    Prod.mk.injEq, and_true]
  omega

theorem parse4_pad4 (n : Nat) (h : n < 10000) (r : List Char) :
    parse4 (pad4 n ++ r) = some (n, r) := by
  have h1 : n / 1000 < 10 := by omega
  have h2 : n / 100 % 10 < 10 := by omega
  have h3 : n / 10 % 10 < 10 := by omega
  have h4 : n % 10 < 10 := by omega
  simp only [pad4, List.cons_append, List.nil_append, parse4,
    digitChar_isDigit _ h1, digitChar_isDigit _ h2, digitChar_isDigit _ h3,
    digitChar_isDigit _ h4, Bool.and_self, if_pos,
    digitVal_digitChar _ h1, digitVal_digitChar _ h2, digitVal_digitChar _ h3,
    digitVal_digitChar _ h4, Option.some.injEq, Prod.mk.injEq, and_true]
  omega

theorem expectChar_self (c : Char) (r : List Char) :
    expectChar c (c :: r) = some r := by
  simp [expectChar]

theorem parseTZ_utc :
    parseTZ ['+', '0', '0', ':', '0', '0'] = some (some 0) := by decide

theorem replacePlusAux_nil (fuel : Nat) : replacePlusAux fuel [] = [] := by
  cases fuel <;> rfl

theorem replacePlusAux_append : ∀ (base : List Char) (fuel : Nat),
    (∀ c ∈ base, c ≠ '+') → base.length + 6 ≤ fuel →
    replacePlusAux fuel (base ++ ['+', '0', '0', ':', '0', '0'])
      = base ++ ['Z'] := by
  intro base
  induction base with
  | nil =>
    intro fuel _ hf
    obtain ⟨f, rfl⟩ : ∃ f, fuel = f + 1 := ⟨fuel - 1, by omega⟩
    simp [replacePlusAux, replacePlusAux_nil]
  | cons c rest ih =>
    intro fuel hb hf
    obtain ⟨f, rfl⟩ : ∃ f, fuel = f + 1 := ⟨fuel - 1, by omega⟩
    have hc : c ≠ '+' := hb c (List.mem_cons_self c rest)
    simp only [List.cons_append, replacePlusAux]
    rw [if_neg (fun hand => hc hand.1)]
    exact congrArg (c :: ·)
      (ih f (fun x hx => hb x (List.mem_cons_of_mem _ hx)) (by
        simp only [List.length_cons] at hf; omega))

theorem replacePlus0000_append (base : List Char) (hb : ∀ c ∈ base, c ≠ '+') :
    replacePlus0000 (base ++ ['+', '0', '0', ':', '0', '0'])
      = base ++ ['Z'] := by
  unfold replacePlus0000
  exact replacePlusAux_append base _ hb (by simp)

theorem replaceZ0000_append (base : List Char) (hb : ∀ c ∈ base, c ≠ 'Z') :
    replaceZ0000 (base ++ ['Z'])
      = base ++ ['+', '0', '0', ':', '0', '0'] := by
  induction base with
  | nil => rfl
  | cons c rest ih =>
    have hc : c ≠ 'Z' := hb c (List.mem_cons_self c rest)
    simp only [List.cons_append, replaceZ0000, if_neg hc]
    exact congrArg (c :: ·) (ih (fun x hx => hb x (List.mem_cons_of_mem _ hx)))

theorem daysInMonth_le (y m : Nat) : daysInMonth y m ≤ 31 := by
  unfold daysInMonth
  split_ifs <;> omega

theorem pad2_good (n : Nat) (h : n < 100) :
    ∀ c ∈ pad2 n, c ≠ '+' ∧ c ≠ 'Z' := by
  intro c hc
  simp only [pad2, List.mem_cons, List.not_mem_nil, or_false] at hc
  rcases hc with rfl | rfl
  · exact digitChar_good _ (by omega)
  · exact digitChar_good _ (by omega)

theorem pad4_good (n : Nat) (h : n < 10000) :
    ∀ c ∈ pad4 n, c ≠ '+' ∧ c ≠ 'Z' := by
  intro c hc
  simp only [pad4, List.mem_cons, List.not_mem_nil, or_false] at hc
  rcases hc with rfl | rfl | rfl | rfl
  · exact digitChar_good _ (by omega)
  · exact digitChar_good _ (by omega)
  · exact digitChar_good _ (by omega)
  · exact digitChar_good _ (by omega)

theorem isoCore_good (dt : PyDateTime) (hy : dt.year < 10000)
    (hmo : dt.month < 100) (hd : dt.day < 100) (hh : dt.hour < 100)
    (hmi : dt.minute < 100) (hs : dt.second < 100) :
    ∀ c ∈ isoCore dt, c ≠ '+' ∧ c ≠ 'Z' := by
  intro c hc
  simp only [isoCore, List.mem_append, List.mem_cons, or_assoc] at hc
  rcases hc with h | rfl | h | rfl | h | rfl | h | rfl | h | rfl | h
  · exact pad4_good _ hy c h
  · exact ⟨by decide, by decide⟩
  · exact pad2_good _ hmo c h
  · exact ⟨by decide, by decide⟩
  · exact pad2_good _ hd c h
  · exact ⟨by decide, by decide⟩
  · exact pad2_good _ hh c h
  · exact ⟨by decide, by decide⟩
  · exact pad2_good _ hmi c h
  · exact ⟨by decide, by decide⟩
  · exact pad2_good _ hs c h

theorem parseHMS_format (h mi s : Nat) (hh : h < 100) (hmi : mi < 100)
    (hs : s < 100) :
    parseHMS (pad2 h ++ ':' :: (pad2 mi ++ ':' :: (pad2 s
        ++ ['+', '0', '0', ':', '0', '0'])))
      = some (h, mi, s, some 0) := by
  simp only [parseHMS, parse2_pad2 h hh, parse2_pad2 mi hmi, parse2_pad2 s hs,
    parseTZ_utc]

theorem fromisoformat_format (dt : PyDateTime)
    (hy1 : 1 ≤ dt.year) (hy2 : dt.year < 10000)
    (hmo1 : 1 ≤ dt.month) (hmo2 : dt.month ≤ 12)
    (hd1 : 1 ≤ dt.day) (hd2 : dt.day ≤ daysInMonth dt.year dt.month)
    (hh : dt.hour ≤ 23) (hmi : dt.minute ≤ 59) (hs : dt.second ≤ 59) :
    fromisoformat (isoCore dt ++ ['+', '0', '0', ':', '0', '0'])
      = some ⟨dt.year, dt.month, dt.day, dt.hour, dt.minute, dt.second,
          some 0⟩ := by
  have hd100 : dt.day < 100 := by
    have := daysInMonth_le dt.year dt.month
    omega
  have hfmt : isoCore dt ++ ['+', '0', '0', ':', '0', '0']
      = pad4 dt.year ++ '-' :: (pad2 dt.month ++ '-' :: (pad2 dt.day
        ++ 'T' :: (pad2 dt.hour ++ ':' :: (pad2 dt.minute ++ ':' :: (pad2 dt.second
          ++ ['+', '0', '0', ':', '0', '0']))))) := by
    simp [isoCore, List.append_assoc]
  rw [hfmt]
  simp only [fromisoformat, parse4_pad4 _ hy2, expectChar_self,
    parse2_pad2 _ (by omega : dt.month < 100),
    parse2_pad2 _ hd100,
    parseHMS_format dt.hour dt.minute dt.second (by omega) (by omega) (by omega)]
  rw [if_pos ⟨hy1, hmo1, hmo2, hd1, hd2, hh, hmi, hs⟩]

theorem daysBeforeYear_1970 : daysBeforeYear 1970 = 719162 := by decide

theorem daysBeforeYear_2101 : daysBeforeYear 2101 = 767009 := by decide

/-- Core of the round-trip property: formatting an in-range Unix timestamp
and parsing the result recovers the timestamp, and the formatted string is
the date-time core followed by `Z`. -/
theorem unix_roundtrip_core (n : Int) (h1 : 946684800 ≤ n)
    (h2 : n ≤ 4102444800) :
    unixToIsoInt n
        = .ok (String.mk (isoCore (fromtimestampUTC n.toNat) ++ ['Z']))
    ∧ iso_to_unix (String.mk (isoCore (fromtimestampUTC n.toNat) ++ ['Z']))
        = .ok n := by
  have hun : (n.toNat : Int) = n := Int.toNat_of_nonneg (by omega)
  set u := n.toNat with hu
  have hu1 : 946684800 ≤ u := by omega
  have hu2 : u ≤ 4102444800 := by omega
  set days := u / 86400 with hdays
  set sod := u % 86400 with hsodd
  have hdd1 : 10957 ≤ days := by omega
  have hdd2 : days ≤ 47482 := by omega
  have hsod1 : sod < 86400 := by omega
  have husplit : days * 86400 + sod = u := by omega
  obtain ⟨e1, e2, e3⟩ := yearWalk_sound (days + 1) 1970 days (by omega) (by omega)
  set Y := (yearWalk (days + 1) 1970 days).1 with hY
  set doy := (yearWalk (days + 1) 1970 days).2 with hdoy
  have hY2 : Y ≤ 2100 := by
    by_contra hYc
    have hmono : daysBeforeYear 2101 ≤ daysBeforeYear Y :=
      daysBeforeYear_mono (by omega) (by omega)
    rw [daysBeforeYear_1970] at e1
    rw [daysBeforeYear_2101] at hmono
    omega
  obtain ⟨m1, m2, m3, m4⟩ := monthWalk_sound Y doy e2
  set M := (monthWalk (monthLengths (isLeapYear Y)) 1 doy).1 with hM
  set dom := (monthWalk (monthLengths (isLeapYear Y)) 1 doy).2 with hdom
  have hdt : fromtimestampUTC u
      = ⟨Y, M, dom + 1, sod / 3600, sod % 3600 / 60, sod % 60, some 0⟩ := rfl
  have hy1 : 1 ≤ Y := by omega
  have hy4 : Y < 10000 := by omega
  have hdmle := daysInMonth_le Y M
  have hgood : ∀ c ∈ isoCore (fromtimestampUTC u), c ≠ '+' ∧ c ≠ 'Z' := by
    rw [hdt]
    exact isoCore_good _ (by simpa using hy4) (by simp; omega) (by simp; omega)
      (by simp; omega) (by simp; omega) (by simp; omega)
  have hval : validate_unix_timestamp (.int n) = true := by
    simp only [validate_unix_timestamp, decide_eq_true_eq]
    exact ⟨h1, h2⟩
  have hpart1 : unixToIsoInt n
      = .ok (String.mk (isoCore (fromtimestampUTC u) ++ ['Z'])) := by
    unfold unixToIsoInt
    rw [if_pos hval]
    unfold isoformatUTC
    rw [replacePlus0000_append _ (fun c hc => (hgood c hc).1)]
  have hzp : zPreprocess (isoCore (fromtimestampUTC u) ++ ['Z'])
      = isoCore (fromtimestampUTC u) ++ ['+', '0', '0', ':', '0', '0'] := by
    unfold zPreprocess
    have hEndZ : endsWithZ (isoCore (fromtimestampUTC u) ++ ['Z']) = true := by
      unfold endsWithZ
      simp
    rw [if_pos hEndZ]
    exact replaceZ0000_append _ (fun c hc => (hgood c hc).2)
  have hparse : fromisoformat (isoCore (fromtimestampUTC u)
        ++ ['+', '0', '0', ':', '0', '0'])
      = some ⟨Y, M, dom + 1, sod / 3600, sod % 3600 / 60, sod % 60,
          some 0⟩ := by
    rw [hdt]
    exact fromisoformat_format _ (by simpa using hy1) (by simpa using hy4)
      (by simpa using m1) (by simpa using m2) (by simp)
      (by simpa using m3) (by simp; omega) (by simp; omega) (by simp; omega)
  have hts : timestampOf ⟨Y, M, dom + 1, sod / 3600, sod % 3600 / 60,
      sod % 60, some 0⟩ = n := by
    unfold timestampOf ymd2ord epochOrd
    simp only [Option.getD_some]
    have hord : daysBeforeYear Y + daysBeforeMonth Y M + (dom + 1)
        = 719163 + days := by
      rw [daysBeforeYear_1970] at e1
      omega
    have hsodsum : sod / 3600 * 3600 + sod % 3600 / 60 * 60 + sod % 60
        = sod := by omega
    omega
  refine ⟨hpart1, ?_⟩
  unfold iso_to_unix
  show (match fromisoformat (zPreprocess (isoCore (fromtimestampUTC u)
      ++ ['Z'])) with
    | none => Except.error TimeError.invalidIsoFormat
    | some dt => Except.ok (timestampOf dt)) = Except.ok n
  rw [hzp, hparse]
  exact congrArg Except.ok hts

/-! ### Claim theorems: metadata registration, formatter, download retry -/

theorem roundHalfEven_intCast (n : ℤ) : roundHalfEven (n : ℚ) = n := by
  unfold roundHalfEven
  rw [Int.floor_intCast]
  rw [if_pos (by norm_num)]

theorem pyRound3_eq (q : ℚ) (n : ℤ) (h : q * 1000 = (n : ℚ)) :
    pyRound3 q = (n : ℚ) / 1000 := by
  unfold pyRound3
  rw [h, roundHalfEven_intCast]

/-- C5: metadata registration is idempotent: re-registering an existing
(type, timestamp, traffic_light_id) triple is a silent no-op (the store is
returned unchanged by the existence check — the model's return type admits
no error at all), and registering the same triple twice starting from a
store without it leaves exactly one matching row. -/
theorem register_metadata_idempotent :
    (∀ db t ts id, register_metadata (register_metadata db t ts id) t ts id
        = register_metadata db t ts id)
    ∧ (∀ db t ts id, db.countP (metadataMatches t ts id) = 0 →
        (register_metadata (register_metadata db t ts id) t ts id).countP
          (metadataMatches t ts id) = 1) := by
  have hself : ∀ t ts id, metadataMatches t ts id ⟨t, ts, id⟩ = true := by
    intro t ts id
    simp [metadataMatches]
  have hstep : ∀ db t ts id, register_metadata (register_metadata db t ts id) t ts id
      = register_metadata db t ts id := by
    intro db t ts id
    by_cases h : db.any (metadataMatches t ts id) = true
    · have h1 : register_metadata db t ts id = db := by
        unfold register_metadata
        rw [if_pos h]
      rw [h1]
      rw [h1]
    · have h1 : register_metadata db t ts id = db ++ [⟨t, ts, id⟩] := by
        unfold register_metadata
        rw [if_neg h]
      rw [h1]
      unfold register_metadata
      rw [if_pos (by
        simp only [List.any_append, List.any_cons, List.any_nil, hself,
          Bool.true_or, Bool.or_true])]
  refine ⟨hstep, ?_⟩
  intro db t ts id hcount
  rw [hstep]
  have hany : db.any (metadataMatches t ts id) = false := by
    rw [List.any_eq_false]
    intro e he
    have := List.countP_eq_zero.mp hcount e he
    simpa using this
  unfold register_metadata
  rw [if_neg (by rw [hany]; exact Bool.false_ne_true)]
  rw [List.countP_append, hcount]
  simp [List.countP_cons, hself t ts id]

/-- Witness for C5 at the spec's concrete example:
(type="data", ts=1700000000, id="5") registered twice from an empty store
leaves exactly one matching row. -/
theorem register_metadata_idempotent_witness :
    ([] : List MetadataEntry).countP (metadataMatches typeData 1700000000 idFive) = 0
    ∧ (register_metadata (register_metadata [] typeData 1700000000 idFive)
        typeData 1700000000 idFive).countP
          (metadataMatches typeData 1700000000 idFive) = 1 :=
  ⟨by decide, register_metadata_idempotent.2 [] typeData 1700000000 idFive (by decide)⟩

/-- C9: `ensure_vehicle_stats` assigns the whole fallback count to the car
class when raw stats are absent or empty, and otherwise fills exactly the
missing classes with zero (no redistribution), per the spec's two
examples. -/
theorem ensure_vehicle_stats_spec :
    ensure_vehicle_stats none 7 = ⟨0, 7, 0, 0⟩
    ∧ ensure_vehicle_stats (some [(kBus, 3)]) 7 = ⟨0, 0, 3, 0⟩
    ∧ (∀ fb, ensure_vehicle_stats none fb = ⟨0, fb, 0, 0⟩)
    ∧ (∀ fb, ensure_vehicle_stats (some []) fb = ⟨0, fb, 0, 0⟩)
    ∧ (∀ l fb, l ≠ [] → ensure_vehicle_stats (some l) fb
        = ⟨dictGetZero l kMotorcycle, dictGetZero l kCar, dictGetZero l kBus,
           dictGetZero l kTruck⟩) := by
  refine ⟨by decide, by decide, fun fb => rfl, fun fb => rfl, ?_⟩
  intro l fb h
  simp only [ensure_vehicle_stats]
  rw [if_neg h]

/-- Witness for C9's universal clause at the spec's partial-stats
example. -/
theorem ensure_vehicle_stats_spec_witness :
    ([((kBus : String), (3 : Int))] ≠ [])
    ∧ ensure_vehicle_stats (some [(kBus, 3)]) 7
      = ⟨dictGetZero [(kBus, 3)] kMotorcycle, dictGetZero [(kBus, 3)] kCar,
         dictGetZero [(kBus, 3)] kBus, dictGetZero [(kBus, 3)] kTruck⟩ :=
  ⟨by decide, ensure_vehicle_stats_spec.2.2.2.2 [(kBus, 3)] 7 (by decide)⟩

/-- C6: `normalize_density` keeps values ≤ 1.0 (rounded to 3 decimals),
including exactly 1.0, and divides larger values by 100 with a clamp at
1.0; the spec's four example values compute as stated. -/
theorem normalize_density_spec :
    (∀ x : ℚ, x ≤ 1 → normalize_density x = pyRound3 x)
    ∧ (∀ x : ℚ, 1 < x → normalize_density x = pyRound3 (min (x / 100) 1))
    ∧ normalize_density 1 = 1
    ∧ normalize_density (1 / 2) = 1 / 2
    ∧ normalize_density 50 = 1 / 2
    ∧ normalize_density 150 = 1 := by
  have hle : ∀ x : ℚ, x ≤ 1 → normalize_density x = pyRound3 x := by
    intro x hx
    unfold normalize_density MAX_NORMALIZED_DENSITY
    rw [if_pos hx]
  have hgt : ∀ x : ℚ, 1 < x → normalize_density x = pyRound3 (min (x / 100) 1) := by
    intro x hx
    unfold normalize_density MAX_NORMALIZED_DENSITY DENSITY_DIVISOR
    rw [if_neg (by exact fun h => absurd hx (not_lt.mpr h))]
  refine ⟨hle, hgt, ?_, ?_, ?_, ?_⟩
  · rw [hle 1 (by norm_num), pyRound3_eq 1 1000 (by norm_num)]
    norm_num
  · rw [hle (1 / 2) (by norm_num), pyRound3_eq (1 / 2) 500 (by norm_num)]
    norm_num
  · rw [hgt 50 (by norm_num)]
    have hmin : min ((50 : ℚ) / 100) 1 = 1 / 2 := by
      rw [min_eq_left (by norm_num)]
      norm_num
    rw [hmin, pyRound3_eq (1 / 2) 500 (by norm_num)]
    norm_num
  · rw [hgt 150 (by norm_num)]
    have hmin : min ((150 : ℚ) / 100) 1 = 1 := by
      rw [min_eq_right (by norm_num)]
    rw [hmin, pyRound3_eq 1 1000 (by norm_num)]
    norm_num

/-- Witness for C6's universal clauses at 0.5 and 50. -/
theorem normalize_density_spec_witness :
    ((1 : ℚ) / 2 ≤ 1 ∧ normalize_density (1 / 2) = pyRound3 (1 / 2))
    ∧ ((1 : ℚ) < 50 ∧ normalize_density 50 = pyRound3 (min (50 / 100) 1)) :=
  ⟨⟨by norm_num, normalize_density_spec.1 (1 / 2) (by norm_num)⟩,
   ⟨by norm_num, normalize_density_spec.2.1 50 (by norm_num)⟩⟩

/-- Counterexample to C3 as stated: a network-class failure (a non-HTTP
exception) on the first download attempt does not propagate; the loop
sleeps 2 seconds, retries, and the run succeeds on attempt 2. -/
theorem download_retry_c3_counterexample :
    (download_from_storage (fun k => if k = 0 then AttemptOutcome.otherFailure
        else AttemptOutcome.success ())).outcome = Except.ok ()
    ∧ (download_from_storage (fun k => if k = 0 then AttemptOutcome.otherFailure
        else AttemptOutcome.success ())).delays = [2]
    ∧ (download_from_storage (fun k => if k = 0 then AttemptOutcome.otherFailure
        else AttemptOutcome.success ())).attemptsMade = 2 :=
  ⟨rfl, rfl, rfl⟩

/-- C3 as amended: only an `HTTPError` that is not (status 500 with
"Record not found" in its message) propagates immediately without retry;
both the record-not-found class and every non-HTTP failure are retried
with backoff. -/
theorem download_retry_policy :
    (∀ (oracle : Nat → AttemptOutcome Unit) s b,
      oracle 0 = .httpError s b → ¬(s = 500 ∧ b = true) →
      download_from_storage oracle
        = ⟨.error (.httpError s b), [], 1⟩)
    ∧ (∀ (oracle : Nat → AttemptOutcome Unit) r,
      oracle 0 = .httpError 500 true → oracle 1 = .success r →
      download_from_storage oracle = ⟨.ok r, [2], 2⟩)
    ∧ (∀ (oracle : Nat → AttemptOutcome Unit) r,
      oracle 0 = .otherFailure → oracle 1 = .success r →
      download_from_storage oracle = ⟨.ok r, [2], 2⟩) := by
  refine ⟨?_, ?_, ?_⟩
  · intro oracle s b h0 hnsb
    simp only [download_from_storage, MAX_DOWNLOAD_RETRIES, downloadGo, h0]
    rw [if_neg hnsb]
  · intro oracle r h0 h1
    simp only [download_from_storage, MAX_DOWNLOAD_RETRIES, downloadGo, h0, h1]
    norm_num [retryDelay, RETRY_DELAY_BASE, RETRY_DELAY_MAX]
  · intro oracle r h0 h1
    simp only [download_from_storage, MAX_DOWNLOAD_RETRIES, downloadGo, h0, h1]
    norm_num [retryDelay, RETRY_DELAY_BASE, RETRY_DELAY_MAX]

/-- Witness for C3's amended theorem: a 404 HTTP error propagates on
attempt 1 with no sleeps. -/
theorem download_retry_policy_witness :
    ((fun (_ : Nat) => (AttemptOutcome.httpError 404 false : AttemptOutcome Unit)) 0
        = .httpError 404 false)
    ∧ ¬((404 : Nat) = 500 ∧ false = true)
    ∧ download_from_storage
        (fun (_ : Nat) => (AttemptOutcome.httpError 404 false : AttemptOutcome Unit))
      = ⟨.error (.httpError 404 false), [], 1⟩ :=
  ⟨rfl, by decide,
    download_retry_policy.1 (fun _ => .httpError 404 false) 404 false rfl (by decide)⟩

/-- Counterexample to C8 as stated: in the all-retries-exhausted worst
case the loop sleeps only four times (between the five attempts), for a
total of 2+4+8+10 = 24 seconds, not 34. -/
theorem download_backoff_c8_counterexample :
    (download_from_storage
        (fun (_ : Nat) => (AttemptOutcome.httpError 500 true : AttemptOutcome Unit))).delays
      = [2, 4, 8, 10]
    ∧ (download_from_storage
        (fun (_ : Nat) => (AttemptOutcome.httpError 500 true : AttemptOutcome Unit))).delays.sum
      = 24
    ∧ ¬((download_from_storage
        (fun (_ : Nat) => (AttemptOutcome.httpError 500 true : AttemptOutcome Unit))).delays.sum
      = 34) :=
  ⟨rfl, rfl, by decide⟩

/-- C8 as amended: between attempts the delay is
`min(2 * 2^attempt, 10)` seconds with attempt counted from 0; a run in
which every attempt fails with the retried record-not-found class makes
all 5 attempts, sleeps the four delays 2, 4, 8, 10, and so waits 24
seconds in total before the final failure propagates. -/
theorem download_backoff_policy :
    (∀ attempt, retryDelay attempt = min (2 * 2 ^ attempt) 10)
    ∧ (∀ oracle : Nat → AttemptOutcome Unit,
        (∀ k, oracle k = .httpError 500 true) →
        download_from_storage oracle
          = ⟨.error (.httpError 500 true), [2, 4, 8, 10], 5⟩)
    ∧ ([2, 4, 8, 10] : List Nat).sum = 24 := by
  refine ⟨fun attempt => rfl, ?_, by decide⟩
  intro oracle h
  simp only [download_from_storage, MAX_DOWNLOAD_RETRIES, downloadGo,
    h 0, h 1, h 2, h 3, h 4]
  norm_num [retryDelay, RETRY_DELAY_BASE, RETRY_DELAY_MAX]

/-- Witness for C8's amended theorem at the constant record-not-found
oracle. -/
theorem download_backoff_policy_witness :
    (∀ k, (fun (_ : Nat) => (AttemptOutcome.httpError 500 true : AttemptOutcome Unit)) k
        = .httpError 500 true)
    ∧ download_from_storage
        (fun (_ : Nat) => (AttemptOutcome.httpError 500 true : AttemptOutcome Unit))
      = ⟨.error (.httpError 500 true), [2, 4, 8, 10], 5⟩ :=
  ⟨fun _ => rfl,
    download_backoff_policy.2.1 (fun _ => .httpError 500 true) (fun _ => rfl)⟩

/-! ### Claim theorems: payload validation (C2) -/

theorem tlidCheck_ok {f : JField String} {s : String}
    (h : tlidCheck f = .ok s) : f = .val s ∧ isNumericString s = true := by
  cases f with
  | absent => exact Except.noConfusion h
  | nullv => exact Except.noConfusion h
  | val v =>
    simp only [tlidCheck] at h
    by_cases hn : isNumericString v = true
    · rw [if_pos hn] at h
      cases h
      exact ⟨rfl, hn⟩
    · rw [if_neg hn] at h
      exact Except.noConfusion h

theorem sensorsCheck_mem : ∀ (l : List SensorDict) (i : Nat) (ids : List String),
    sensorsCheck l i = .ok ids →
    ∀ s ∈ ids, JField.val s ∈ l.map SensorDict.traffic_light_id := by
  intro l
  induction l with
  | nil =>
    intro i ids h s hs
    unfold sensorsCheck at h
    cases h
    exact absurd hs (List.not_mem_nil s)
  | cons sd rest ih =>
    intro i ids h s hs
    unfold sensorsCheck at h
    split at h
    · exact Except.noConfusion h
    · split at h
      · rename_i sid heq
        split at h
        · exact Except.noConfusion h
        · split at h
          · exact Except.noConfusion h
          · rename_i ids2 heq2
            cases h
            simp only [List.map_cons, List.mem_cons]
            rcases List.mem_cons.mp hs with rfl | hmem
            · left
              rw [heq]
            · right
              exact ih (i + 1) ids2 heq2 s hmem
      · exact Except.noConfusion h

/-- C2: a type-"data" payload carrying a sensors list validates only if the
list has between 1 and 10 entries and the envelope's reference id appears
among the sensors' ids; a batch of 11 fails while a batch of exactly 10
passes, and the spec's reference-id examples behave as stated. -/
theorem validate_payload_batch_spec :
    (∀ (p : Payload) (l : List SensorDict), p.type = .val typeData →
      p.sensors = .val l → validate_payload p = .ok true →
      1 ≤ l.length ∧ l.length ≤ 10
      ∧ ∃ ref, p.traffic_light_id = .val ref
          ∧ JField.val ref ∈ l.map SensorDict.traffic_light_id)
    ∧ validate_payload (exampleBatch idFive [idFive, idSix]) = .ok true
    ∧ validate_payload (exampleBatch idNine [idFive, idSix])
        = .error .refNotInSensors
    ∧ validate_payload (exampleBatch idFive (List.replicate 11 idFive))
        = .error .sensorsTooMany
    ∧ validate_payload (exampleBatch idFive (List.replicate 10 idFive))
        = .ok true := by
  refine ⟨?_, rfl, rfl, rfl, rfl⟩
  intro p l htype hsens hval
  unfold validate_payload at hval
  split at hval
  · exact Except.noConfusion hval
  · split at hval
    · rename_i v heqv
      split at hval
      · exact Except.noConfusion hval
      · split at hval
        · rename_i t heqt
          split at hval
          · exact Except.noConfusion hval
          · split at hval
            · exact Except.noConfusion hval
            · split at hval
              · -- the type = "data" branch
                unfold validate_data_specific_fields at hval
                rw [hsens] at hval
                simp only [JField.isPresent, if_true] at hval
                split at hval
                · exact Except.noConfusion hval
                · split at hval
                  · exact Except.noConfusion hval
                  · rename_i ref heqref
                    split at hval
                    · exact Except.noConfusion hval
                    · rename_i h0
                      split at hval
                      · exact Except.noConfusion hval
                      · rename_i h10
                        split at hval
                        · exact Except.noConfusion hval
                        · rename_i ids heqids
                          split at hval
                          · rename_i hmem
                            refine ⟨by omega, by omega, ref,
                              (tlidCheck_ok heqref).1, ?_⟩
                            exact sensorsCheck_mem l 0 ids heqids ref hmem
                          · exact Except.noConfusion hval
              · rename_i hneq
                rw [heqt] at htype
                injection htype with hte
                exact absurd hte hneq
        · exact Except.noConfusion hval
    · exact Except.noConfusion hval

/-- Witness for C2's universal clause at the spec's validating example. -/
theorem validate_payload_batch_spec_witness :
    ((exampleBatch idFive [idFive, idSix]).type = .val typeData
      ∧ (exampleBatch idFive [idFive, idSix]).sensors
          = .val ([idFive, idSix].map exampleSensor)
      ∧ validate_payload (exampleBatch idFive [idFive, idSix]) = .ok true)
    ∧ (1 ≤ ([idFive, idSix].map exampleSensor).length
      ∧ ([idFive, idSix].map exampleSensor).length ≤ 10
      ∧ ∃ ref, (exampleBatch idFive [idFive, idSix]).traffic_light_id = .val ref
          ∧ JField.val ref
              ∈ ([idFive, idSix].map exampleSensor).map SensorDict.traffic_light_id) :=
  ⟨⟨rfl, rfl, rfl⟩,
    validate_payload_batch_spec.1 (exampleBatch idFive [idFive, idSix])
      ([idFive, idSix].map exampleSensor) rfl rfl rfl⟩

/-! ### Claim theorems: single-sensor vs one-element batch (C4) -/

theorem to_batch_format_is_batch (d b : TrafficData)
    (h : d.to_batch_format = .ok b) : b.is_batch = true := by
  unfold TrafficData.to_batch_format at h
  split at h
  · rename_i hb
    cases h
    exact hb
  · split at h
    · exact Except.noConfusion h
    · split at h
      · cases h
        rfl
      · exact Except.noConfusion h

/-- C4: a legacy single-sensor request is lifted by `to_batch_format` into
a batch whose sensors list has exactly one element, and the `/process`
entry point then runs the same `process_data_batch` call on that lifted
batch that a directly-submitted equal batch would get: the responses and
the final metadata stores are identical for every environment and initial
store. -/
theorem process_single_sensor_equals_batch (env : PipelineEnv)
    (db : List MetadataEntry) (d : TrafficData)
    (hsingle : d.is_single_sensor = true) (hnb : d.is_batch = false) :
    ∃ b, d.to_batch_format = .ok b
      ∧ (match b.sensors with | some l => l.length | none => 0) = 1
      ∧ process env db d = process env db b
      ∧ (process env db d).2 = (process env db b).2 := by
  have hsingle3 := hsingle
  unfold TrafficData.is_single_sensor at hsingle3
  simp only [Bool.and_eq_true, Option.isSome_iff_exists] at hsingle3
  obtain ⟨⟨⟨ce, hce⟩, me, hme⟩, vs, hvs⟩ := hsingle3
  have hexists : ∃ b, d.to_batch_format = .ok b
      ∧ (match b.sensors with | some l => l.length | none => 0) = 1 := by
    unfold TrafficData.to_batch_format
    rw [if_neg (by rw [hnb]; exact Bool.false_ne_true)]
    rw [if_neg (not_not_intro (by rw [hsingle]))]
    rw [hce, hme, hvs]
    exact ⟨_, rfl, rfl⟩
  obtain ⟨b, htb, hlen⟩ := hexists
  have key : process env db d = process env db b := by
    unfold process
    rw [if_neg (by rw [hnb]; exact Bool.false_ne_true)]
    rw [if_pos (by rw [hsingle])]
    rw [htb]
    rw [if_pos (to_batch_format_is_batch d b htb)]
  exact ⟨b, htb, hlen, key, congrArg Prod.snd key⟩

/-- Witness for C4 at a concrete single-sensor payload and environment. -/
theorem process_single_sensor_equals_batch_witness :
    ((⟨exVersion, typeData, (r"2023-11-14T22:13:20Z"), idFive, none,
        some [(r"e1")], some ⟨10, 40, 30, 1 / 2⟩,
        some ⟨0, 7, 0, 0⟩⟩ : TrafficData)).is_single_sensor = true
    ∧ ((⟨exVersion, typeData, (r"2023-11-14T22:13:20Z"), idFive, none,
        some [(r"e1")], some ⟨10, 40, 30, 1 / 2⟩,
        some ⟨0, 7, 0, 0⟩⟩ : TrafficData)).is_batch = false
    ∧ ∃ b, (⟨exVersion, typeData, (r"2023-11-14T22:13:20Z"), idFive, none,
        some [(r"e1")], some ⟨10, 40, 30, 1 / 2⟩,
        some ⟨0, 7, 0, 0⟩⟩ : TrafficData).to_batch_format = .ok b
      ∧ (match b.sensors with | some l => l.length | none => 0) = 1
      ∧ process ⟨true, fun _ => AttemptOutcome.otherFailure, Except.error (), true⟩
          [] (⟨exVersion, typeData, (r"2023-11-14T22:13:20Z"), idFive, none,
            some [(r"e1")], some ⟨10, 40, 30, 1 / 2⟩,
            some ⟨0, 7, 0, 0⟩⟩ : TrafficData)
        = process ⟨true, fun _ => AttemptOutcome.otherFailure, Except.error (), true⟩
          [] b
      ∧ (process ⟨true, fun _ => AttemptOutcome.otherFailure, Except.error (), true⟩
          [] (⟨exVersion, typeData, (r"2023-11-14T22:13:20Z"), idFive, none,
            some [(r"e1")], some ⟨10, 40, 30, 1 / 2⟩,
            some ⟨0, 7, 0, 0⟩⟩ : TrafficData)).2
        = (process ⟨true, fun _ => AttemptOutcome.otherFailure, Except.error (), true⟩
          [] b).2 :=
  ⟨rfl, rfl, process_single_sensor_equals_batch _ [] _ rfl rfl⟩

/-! ### Claim theorems: timestamp conversions (C1, C7, C10) -/

theorem iso_to_unix_ok_validate {s : String} {n : Int}
    (h : iso_to_unix s = .ok n) : validate_iso_timestamp s = true := by
  unfold iso_to_unix at h
  unfold validate_iso_timestamp
  cases hp : fromisoformat (zPreprocess s.data) with
  | none =>
    rw [hp] at h
    exact Except.noConfusion h
  | some dt => simp [hp]

/-- C1: the timestamp conversions round-trip on the valid range: for every
Unix integer u in [946684800, 4102444800], `unix_to_iso` produces a
canonical ISO-with-Z string s with `iso_to_unix s = u` — so
`toUnix(toIso(u)) = u`, and for every string x in canonical ISO-with-Z
form in range (i.e. in the image of `unix_to_iso`), `toIso(toUnix(x)) = x`
by the same two equations read in the other order. -/
theorem timestamp_roundtrip (u : Int) (h1 : 946684800 ≤ u)
    (h2 : u ≤ 4102444800) :
    ∃ s, unix_to_iso (.int u) = .ok s ∧ iso_to_unix s = .ok u
      ∧ validate_iso_timestamp s = true := by
  obtain ⟨hp1, hp2⟩ := unix_roundtrip_core u h1 h2
  exact ⟨_, hp1, hp2, iso_to_unix_ok_validate hp2⟩

/-- Witness for C1 at u = 1700000000. -/
theorem timestamp_roundtrip_witness :
    (946684800 ≤ (1700000000 : Int)) ∧ ((1700000000 : Int) ≤ 4102444800)
    ∧ ∃ s, unix_to_iso (.int 1700000000) = .ok s
        ∧ iso_to_unix s = .ok 1700000000
        ∧ validate_iso_timestamp s = true :=
  ⟨by decide, by decide, timestamp_roundtrip 1700000000 (by decide) (by decide)⟩

/-- Counterexample to C7 as stated: `iso_to_unix` happily converts an ISO
instant from 1999, returning the out-of-range integer 915148800 instead of
failing with an out-of-range error. -/
theorem iso_to_unix_c7_counterexample :
    iso_to_unix (r"1999-01-01T00:00:00Z") = .ok 915148800
    ∧ ((915148800 : Int) < 946684800) :=
  ⟨rfl, by decide⟩

/-- C7 as amended: `iso_to_unix` performs no range check at all — it
succeeds exactly on the strings accepted by the ISO validator, regardless
of the instant, and can return integers outside
[946684800, 4102444800]; the range check lives only in
`validate_unix_timestamp` (used by `unix_to_iso`). -/
theorem iso_to_unix_no_range_check :
    (∀ s : String, (∃ n, iso_to_unix s = .ok n)
        ↔ validate_iso_timestamp s = true)
    ∧ iso_to_unix (r"1999-01-01T00:00:00Z") = .ok 915148800
    ∧ ((915148800 : Int) < 946684800)
    ∧ validate_unix_timestamp (.int 915148800) = false := by
  refine ⟨?_, rfl, by decide, by decide⟩
  intro s
  unfold iso_to_unix validate_iso_timestamp
  cases hp : fromisoformat (zPreprocess s.data) with
  | none =>
    constructor
    · rintro ⟨n, hn⟩
      exact Except.noConfusion hn
    · intro h
      simp at h
  | some dt =>
    constructor
    · intro _
      simp
    · intro _
      exact ⟨timestampOf dt, rfl⟩

/-- Witness for C7's amended theorem at the 1999 instant. -/
theorem iso_to_unix_no_range_check_witness :
    (∃ n, iso_to_unix (r"1999-01-01T00:00:00Z") = .ok n)
    ↔ validate_iso_timestamp (r"1999-01-01T00:00:00Z") = true :=
  iso_to_unix_no_range_check.1 (r"1999-01-01T00:00:00Z")

/-- C10: `unix_to_iso` returns any string accepted by the ISO validator
unchanged — no canonicalization (an explicit `+00:00` offset is not
rewritten to `Z`) and no range check — while the
[946684800, 4102444800] range check is applied to integer inputs and to
non-ISO numeric strings. -/
theorem unix_to_iso_passthrough :
    (∀ s, validate_iso_timestamp s = true → unix_to_iso (.str s) = .ok s)
    ∧ unix_to_iso (.str (r"2023-11-14T22:13:20+00:00"))
        = .ok (r"2023-11-14T22:13:20+00:00")
    ∧ (∀ n : Int, ¬(946684800 ≤ n ∧ n ≤ 4102444800) →
        unix_to_iso (.int n) = .error .invalidUnixTimestamp)
    ∧ (∀ s n, validate_iso_timestamp s = false → pyIntOfString s = some n →
        ¬(946684800 ≤ n ∧ n ≤ 4102444800) →
        unix_to_iso (.str s) = .error .invalidUnixTimestamp) := by
  refine ⟨?_, rfl, ?_, ?_⟩
  · intro s h
    simp only [unix_to_iso]
    rw [if_pos h]
  · intro n h
    simp only [unix_to_iso, unixToIsoInt]
    rw [if_neg (by simp only [validate_unix_timestamp, decide_eq_true_eq]; exact h)]
  · intro s n hval hint h
    simp only [unix_to_iso]
    rw [if_neg (by simp only [hval]; exact Bool.false_ne_true)]
    rw [hint]
    simp only [unixToIsoInt]
    rw [if_neg (by simp only [validate_unix_timestamp, decide_eq_true_eq]; exact h)]

/-- Witness for C10: the already-ISO string with an explicit offset passes
through unchanged, and the int 1 (before year 2000) is rejected. -/
theorem unix_to_iso_passthrough_witness :
    (validate_iso_timestamp (r"2023-11-14T22:13:20+00:00") = true
      ∧ unix_to_iso (.str (r"2023-11-14T22:13:20+00:00"))
          = .ok (r"2023-11-14T22:13:20+00:00"))
    ∧ (¬(946684800 ≤ (1 : Int) ∧ (1 : Int) ≤ 4102444800)
      ∧ unix_to_iso (.int 1) = .error .invalidUnixTimestamp) :=
  ⟨⟨rfl, unix_to_iso_passthrough.1 (r"2023-11-14T22:13:20+00:00") rfl⟩,
   ⟨by decide, unix_to_iso_passthrough.2.2.1 1 (by decide)⟩⟩
